import Mathlib

/-!
Verification of the mcp-server travel-search backend.

This file gives a shallow embedding of the pure data-shaping core of the
repository (src/src/utils/normalizer.py, src/src/utils/validator.py,
src/src/core/exceptions.py, src/src/schemas/models.py and the deterministic
parts of src/src/services/search_service.py and position_service.py) and
proves or refutes the frozen claims about it.

Modelling conventions:
* JSON payloads are values of the inductive type `JValue`.  Payload numbers
  are modelled as integers (the code only manipulates integral cents and
  counts); the Python `float` results produced by the code are modelled as
  exact rationals (`Rat`), which is faithful up to floating-point rounding,
  a distinction no claim depends on.
* Python exceptions are modelled with `Except PyErr`; the distinct Python
  exception classes the code can raise become constructors of `PyErr`.
* f-strings passed to the logger are evaluated eagerly by Python, so a
  format error inside a logging call is a real raise and is modelled as one.
* Python dictionaries are association lists; dictionaries decoded from JSON
  have unique keys, and dictionaries built by the code are built with
  overwriting insertion, mirroring CPython insertion-order semantics.
-/

namespace MCP

/-- JSON-like runtime values flowing through the normalizers. -/
inductive JValue where
  | null
  | bool (b : Bool)
  | int (n : Int)
  | str (s : String)
  | arr (xs : List JValue)
  | obj (kvs : List (String × JValue))

/-- Python truthiness: `None`, `False`, `0`, `""`, `[]`, `\x7b\x7d` are falsy. -/
def truthy : JValue → Bool
  | .null => false
  | .bool b => b
  | .int n => n != 0
  | .str s => !s.isEmpty
  | .arr xs => !xs.isEmpty
  | .obj kvs => !kvs.isEmpty

/-- The Python exceptions the embedded code can raise. -/
inductive PyErr where
  | typeError (msg : String)
  | valueError (msg : String)
  | attributeError (msg : String)
  | indexError (msg : String)
  /-- A pydantic model rejected a field value. -/
  | validationError (msg : String)
  /-- `InvalidInputError(message, hint)` from src/core/exceptions.py. -/
  | invalidInput (message : String) (hint : Option String)
  /-- `LocationResolutionError(message)` from src/core/exceptions.py. -/
  | locationResolution (message : String)
deriving DecidableEq

/-- First-match lookup in an association list (Python `dict` access; JSON
objects decoded by Python have unique keys). -/
def alistGet? (kvs : List (String × JValue)) (k : String) : Option JValue :=
  match kvs.find? (fun kv => kv.1 == k) with
  | some kv => some kv.2
  | none => none

/-- Overwriting insertion, mirroring CPython `d[k] = v` (an existing key keeps
its position and receives the new value; a new key is appended). -/
def alistSet (kvs : List (String × JValue)) (k : String) (v : JValue) :
    List (String × JValue) :=
  if (kvs.find? (fun kv => kv.1 == k)).isSome then
    kvs.map (fun kv => if kv.1 == k then (k, v) else kv)
  else
    kvs ++ [(k, v)]

/-- `value.get(key, default)`: succeeds only on dictionaries, raising
`AttributeError` on every other receiver. -/
def pyGetD (v : JValue) (k : String) (dflt : JValue) : Except PyErr JValue :=
  match v with
  | .obj kvs => .ok ((alistGet? kvs k).getD dflt)
  | _ => .error (.attributeError ("object has no attribute get: " ++ k))

/-- `value.get(key)` (default `None`). -/
def pyGet (v : JValue) (k : String) : Except PyErr JValue :=
  pyGetD v k .null

/-- Python `a or b` (returns the first truthy operand, else the second). -/
def pyOr (a b : JValue) : JValue :=
  if truthy a then a else b

/-- `len(value)`: defined on strings, lists and dictionaries. -/
def pyLen (v : JValue) : Except PyErr Nat :=
  match v with
  | .str s => .ok s.length
  | .arr xs => .ok xs.length
  | .obj kvs => .ok kvs.length
  | _ => .error (.typeError "object has no len")

/-- Iterating a value in a `for` loop or `list.extend`: lists yield their
elements, strings their characters, dictionaries their keys. -/
def pyIter (v : JValue) : Except PyErr (List JValue) :=
  match v with
  | .arr xs => .ok xs
  | .str s => .ok (s.data.map (fun c => .str (String.mk [c])))
  | .obj kvs => .ok (kvs.map (fun kv => .str kv.1))
  | _ => .error (.typeError "object is not iterable")

/-- `value.items()`: succeeds only on dictionaries. -/
def pyItems (v : JValue) : Except PyErr (List (String × JValue)) :=
  match v with
  | .obj kvs => .ok kvs
  | _ => .error (.attributeError "object has no attribute items")

/-- `list(value.keys())`: succeeds only on dictionaries.  The skip-path
debug logs of `normalize_positions` evaluate this eagerly, so a truthy
non-dict record aborts the call there. -/
def pyKeys (v : JValue) : Except PyErr (List String) :=
  match v with
  | .obj kvs => .ok (kvs.map Prod.fst)
  | _ => .error (.attributeError "object has no attribute keys")

/-- Equality test of a runtime value against a Python `int` literal
(`x == 0` and friends): numeric types compare numerically, `True == 1`,
and every non-numeric value is unequal to an integer. -/
def pyEqInt (v : JValue) (m : Int) : Bool :=
  match v with
  | .int n => n == m
  | .bool b => (if b then (1 : Int) else 0) == m
  | _ => false

/-- Equality test of a runtime value against a Python `str` literal. -/
def pyEqStr (v : JValue) (s : String) : Bool :=
  match v with
  | .str t => t == s
  | _ => false

/-- Substring test on character lists (Python `k in s` for strings). -/
def charsInfixOf (k : List Char) : List Char → Bool
  | [] => k.isEmpty
  | c :: rest => k.isPrefixOf (c :: rest) || charsInfixOf k rest

/-- `key in value` for a string key: key membership on dictionaries,
substring test on strings, elementwise equality on lists. -/
def pyContains (k : String) (v : JValue) : Except PyErr Bool :=
  match v with
  | .obj kvs => .ok (kvs.any (fun kv => kv.1 == k))
  | .str s => .ok (charsInfixOf k.data s.data)
  | .arr xs => .ok (xs.any (fun x => pyEqStr x k))
  | _ => .error (.typeError "argument is not a container")

/-- The characters stripped by Python `str.strip()` (ASCII whitespace). -/
def pySpace (c : Char) : Bool :=
  c == ' ' || c == '\t' || c == '\n' || c == '\r' || c == '\x0b' || c == '\x0c'

/-- Python `s.strip()`. -/
def pyStrip (s : String) : String :=
  String.mk (((s.data.dropWhile pySpace).reverse.dropWhile pySpace).reverse)

/-- Digits to a natural number (most significant first). -/
def digitsToNat (cs : List Char) : Nat :=
  cs.foldl (fun a c => a * 10 + (c.toNat - 48)) 0

/-- Python `int(s)` on a string: strip whitespace, optional sign, decimal
digits.  (Numeric-literal underscores are not modelled.) -/
def parseIntStr (s : String) : Option Int :=
  let t := pyStrip s
  match t.data with
  | [] => none
  | '+' :: rest =>
    if rest.isEmpty then none
    else if rest.all Char.isDigit then some (digitsToNat rest : Int) else none
  | '-' :: rest =>
    if rest.isEmpty then none
    else if rest.all Char.isDigit then some (-(digitsToNat rest : Int)) else none
  | cs =>
    if cs.all Char.isDigit then some (digitsToNat cs : Int) else none

/-- Python `int(x)`: integers as themselves, booleans as 0/1, strings parsed
(`ValueError` on failure), everything else `TypeError`. -/
def pyInt (v : JValue) : Except PyErr Int :=
  match v with
  | .int n => .ok n
  | .bool b => .ok (if b then 1 else 0)
  | .str s =>
    match parseIntStr s with
    | some n => .ok n
    | none => .error (.valueError ("invalid literal for int: " ++ s))
  | _ => .error (.typeError "int argument must be a string or a number")

/-- Fractional digits to an exact rational. -/
def fracDigitsToRat (cs : List Char) : Rat :=
  (digitsToNat cs : Rat) / ((10 : Rat) ^ cs.length)

/-- Python `float(s)` on a string: strip whitespace, optional sign, decimal
digits with an optional fractional part, as an exact rational.
(Exponents, `inf` and `nan` are not modelled.) -/
def parseFloatStr (s : String) : Option Rat :=
  let t := pyStrip s
  let core := fun (cs : List Char) =>
    match (cs.splitOn '.') with
    | [intPart, fracPart] =>
      if (intPart.isEmpty && fracPart.isEmpty) then none
      else if intPart.all Char.isDigit && fracPart.all Char.isDigit then
        some ((digitsToNat intPart : Rat) + fracDigitsToRat fracPart)
      else none
    | [intPart] =>
      if intPart.isEmpty then none
      else if intPart.all Char.isDigit then some (digitsToNat intPart : Rat)
      else none
    | _ => none
  match t.data with
  | [] => none
  | '+' :: rest => core rest
  | '-' :: rest => (core rest).map (fun r => -r)
  | cs => core cs

/-- Python `float(x)`: integers and booleans promoted, strings parsed
(`ValueError` on failure), everything else `TypeError`. -/
def pyFloat (v : JValue) : Except PyErr Rat :=
  match v with
  | .int n => .ok (n : Rat)
  | .bool b => .ok (if b then 1 else 0)
  | .str s =>
    match parseFloatStr s with
    | some r => .ok r
    | none => .error (.valueError ("could not convert string to float: " ++ s))
  | _ => .error (.typeError "float argument must be a string or a number")

/-- Python `a < b` for the value kinds the code compares: numbers with
numbers, strings with strings; mixed kinds raise `TypeError`.
(Container comparison is not reached by the embedded code paths.) -/
def pyLt (a b : JValue) : Except PyErr Bool :=
  match a, b with
  | .int n, .int m => .ok (n < m)
  | .int n, .bool c => .ok (n < (if c then 1 else 0))
  | .bool c, .int m => .ok ((if c then (1 : Int) else 0) < m)
  | .bool c, .bool d => .ok ((if c then (1 : Int) else 0) < (if d then 1 else 0))
  | .str s, .str t => .ok (s < t)
  | _, _ => .error (.typeError "unorderable types")

/-- `str(x)` for the value kinds the code stringifies (scalar values; the
container cases mirror Python reprs shallowly for scalar elements). -/
def pyStr (v : JValue) : String :=
  match v with
  | .null => "None"
  | .bool true => "True"
  | .bool false => "False"
  | .int n => toString n
  | .str s => s
  | .arr _ => "[...]"
  | .obj _ => "\x7b...\x7d"

/-! ## Pydantic models (src/src/schemas/models.py) -/

/-- `Position` (models.py): id, name, type, optional country code. -/
structure Position where
  id : Int
  name : String
  type : String
  country_code : Option String
deriving DecidableEq

/-- Pydantic validation of a required `str` field: accepts strings only. -/
def asStr (field : String) (v : JValue) : Except PyErr String :=
  match v with
  | .str s => .ok s
  | _ => .error (.validationError (field ++ ": input should be a valid string"))

/-- Pydantic validation of an `Optional[str]` field: `None` or a string. -/
def asOptStr (field : String) (v : JValue) : Except PyErr (Option String) :=
  match v with
  | .null => .ok none
  | .str s => .ok (some s)
  | _ => .error (.validationError (field ++ ": input should be a valid string"))

/-- Constructing a `Position` pydantic model from runtime values (the id is
already an `int` at the construction site in normalizer.py). -/
def mkPosition (id : Int) (name ty cc : JValue) : Except PyErr Position := do
  let n ← asStr "name" name
  let t ← asStr "type" ty
  let c ← asOptStr "countryCode" cc
  .ok ⟨id, n, t, c⟩

/-! ## normalize_positions (normalizer.py lines 6-74) -/

/-- One iteration of the `normalize_positions` loop (normalizer.py lines
20-68): `.ok none` is a skipped record, `.ok (some p)` a kept one, and
`.error` an exception escaping the whole call. -/
def processRecord (pos : JValue) : Except PyErr (Option Position) := do
  if !truthy pos then
    .ok none
  else do
    let mem ← pyContains "positionId" pos
    if !mem then do
      -- the skip log (normalizer.py 27-28) evaluates list(pos.keys())
      let _ ← pyKeys pos
      .ok none
    else do
      let dn ← pyGet pos "displayName"
      let df ← pyGet pos "defaultName"
      let nm ← pyGet pos "name"
      let name := pyOr dn (pyOr df nm)
      if !truthy name then do
        -- the skip log (normalizer.py 35-38) evaluates list(pos.keys())
        let _ ← pyKeys pos
        .ok none
      else do
        let rawId ← pyGet pos "positionId"
        match pyInt rawId with
        | .error _ =>
          -- `except (TypeError, ValueError)`: skip with a warning
          .ok none
        | .ok position_id => do
          let ty ← pyGetD pos "type" (.str "unknown")
          let cc ← pyGet pos "countryCode"
          let p ← mkPosition position_id name ty cc
          .ok (some p)

/-- The `for` loop of `normalize_positions`, threading the accumulated
positions and the `skipped_count` counter. -/
def npLoop : List JValue → List Position → Nat → Except PyErr (List Position × Nat)
  | [], acc, k => .ok (acc, k)
  | p :: rest, acc, k => do
    match ← processRecord p with
    | none => npLoop rest acc (k + 1)
    | some pos => npLoop rest (acc ++ [pos]) k

/-- `normalize_positions` (normalizer.py lines 6-74).  The returned pair is
the function result together with the final `skipped_count` local (reported
by the closing log line). -/
def normalize_positions (raw : List JValue) : Except PyErr (List Position × Nat) :=
  if raw.isEmpty then .ok ([], 0)
  else npLoop raw [] 0

/-! ## shape_day_results (normalizer.py lines 105-175) -/

/-- `TimeInfo` (models.py): required string datetime, optional tz. -/
structure TimeInfo where
  datetime : String
  tz : Option String
deriving DecidableEq

/-- `Itinerary` (models.py). -/
structure Itinerary where
  from_term : String
  to_term : String
  mode : String
  stable_id : String
  price_from : Rat
  currency : String
  duration : String
  departure : TimeInfo
  arrival : TimeInfo
  carrier : Option String
deriving DecidableEq

/-- Constructing a `TimeInfo` pydantic model from runtime values. -/
def mkTimeInfo (dtv tzv : JValue) : Except PyErr TimeInfo := do
  let d ← asStr "datetime" dtv
  let t ← asOptStr "tz" tzv
  .ok ⟨d, t⟩

/-- `sid in segments_map`: dictionary-key membership of an arbitrary runtime
value against string keys; unhashable values raise `TypeError`. -/
def pyHashMem (sid : JValue) (m : List (String × JValue)) : Except PyErr Bool :=
  match sid with
  | .str s => .ok (m.any (fun kv => kv.1 == s))
  | .arr _ => .error (.typeError "unhashable type: list")
  | .obj _ => .error (.typeError "unhashable type: dict")
  | _ => .ok false

/-- The `carriers_map` dict comprehension (normalizer.py lines 108-109). -/
def buildCarriersMap (cs : List JValue) : Except PyErr (List (String × JValue)) :=
  cs.foldlM (fun m c => do
    let idv ← pyGet c "id"
    let namev ← pyGet c "name"
    let codev ← pyGet c "code"
    .ok (alistSet m (pyStr idv) (pyOr namev (pyOr codev (.str (pyStr idv)))))) []

/-- The `positions_map` dict comprehension (normalizer.py lines 110-111). -/
def buildPositionsMap (ps : List JValue) : Except PyErr (List (String × JValue)) :=
  ps.foldlM (fun m p => do
    let idv ← pyGet p "id"
    let namev ← pyGet p "name"
    .ok (alistSet m (pyStr idv) (pyOr namev (.str (pyStr idv))))) []

/-- The `segments_map` dict comprehension (normalizer.py line 112). -/
def buildSegmentsMap (ss : List JValue) : Except PyErr (List (String × JValue)) :=
  ss.foldlM (fun m s => do
    let idv ← pyGet s "id"
    .ok (alistSet m (pyStr idv) s)) []

/-- The `segment_ids` list comprehension (normalizer.py line 130): keep the
segment ids found in `segments_map`, stringified. -/
def filterSegmentIds (segmap : List (String × JValue)) :
    List JValue → Except PyErr (List String)
  | [] => .ok []
  | sid :: rest => do
    let keep ← pyHashMem sid segmap
    let tail ← filterSegmentIds segmap rest
    .ok (if keep then pyStr sid :: tail else tail)

/-- Stable insertion into a key-sorted list: the new element goes after every
element whose key is not greater. -/
def pyInsertSorted (x : JValue × JValue) :
    List (JValue × JValue) → Except PyErr (List (JValue × JValue))
  | [] => .ok [x]
  | y :: rest => do
    if ← pyLt x.1 y.1 then
      .ok (x :: y :: rest)
    else do
      let t ← pyInsertSorted x rest
      .ok (y :: t)

/-- `list.sort(key=...)` (normalizer.py line 132): a stable sort on
precomputed keys; comparing unorderable keys raises `TypeError`. -/
def pySortByKey (xs : List (JValue × JValue)) :
    Except PyErr (List (JValue × JValue)) :=
  xs.foldlM (fun acc x => pyInsertSorted x acc) []

/-- The body of the per-schedule `try` block (normalizer.py lines 130-161)
on a schedule already known to be a dict: an `.error` is caught by the
enclosing `except` and counted, a `.ok` itinerary is appended. -/
def processSchedule (cm pm sm : List (String × JValue)) (fromPosV toPosV : JValue)
    (sched : JValue) : Except PyErr Itinerary := do
  let sidsRaw ← pyGet sched "segmentIDs"
  let sids ← pyIter (pyOr sidsRaw (.arr []))
  let segment_ids ← filterSegmentIds sm sids
  let segments_data := segment_ids.map (fun sid => (alistGet? sm sid).getD .null)
  let keyed ← segments_data.mapM (fun s => do
    let k ← pyGet s "departureDateTime"
    pure (pyOr k (.str ""), s))
  let sorted ← pySortByKey keyed
  let first_seg := (sorted.map (fun kv => kv.2)).headD (.obj [])
  let dep_info := pyOr (← pyGet first_seg "departureDateTime") (← pyGet sched "departureAt")
  let arr_info := pyOr (← pyGet first_seg "arrivalDateTime") (← pyGet sched "arrivalAt")
  let dep_tz := pyOr (← pyGet first_seg "departureTimeZone") (.str "UTC")
  let arr_tz := pyOr (← pyGet first_seg "arrivalTimeZone") (.str "UTC")
  let dep ← mkTimeInfo dep_info dep_tz
  let arr ← mkTimeInfo arr_info arr_tz
  let from_pos_id := pyStr (pyOr (← pyGet first_seg "departurePositionId") (pyOr fromPosV (.str "")))
  let to_pos_id := pyStr (pyOr (← pyGet first_seg "arrivalPositionId") (pyOr toPosV (.str "")))
  let from_term ← asStr "from_term" ((alistGet? pm from_pos_id).getD (.str "Unknown"))
  let to_term ← asStr "to_term" ((alistGet? pm to_pos_id).getD (.str "Unknown"))
  let mode ← asStr "mode"
    (pyOr (← pyGet first_seg "travelMode") (pyOr (← pyGet sched "travelMode") (.str "unknown")))
  let stable_id := pyStr (pyOr (← pyGet sched "id") (pyOr (← pyGet first_seg "id") (.str "")))
  let price ← pyFloat (← pyGetD sched "priceCents" (.int 0))
  let currency ← asStr "currency" (pyOr (← pyGet sched "currency") (.str "EUR"))
  let duration := pyStr
    (pyOr (← pyGet first_seg "durationMinutes") (pyOr (← pyGet sched "duration") (.int 0)))
  let cid ← pyGet first_seg "carrierId"
  let carrierV := if truthy cid then (alistGet? cm (pyStr cid)).getD .null else .null
  let carrier ← asOptStr "carrier" carrierV
  .ok ⟨from_term, to_term, mode, stable_id, price / 100, currency, duration, dep, arr, carrier⟩

/-- The `for` loop of `shape_day_results` (normalizer.py lines 123-172),
threading `shaped_results` and `errors_count`; every exception inside the
body is caught and counted. -/
def shapeLoop (cm pm sm : List (String × JValue)) (fromPosV toPosV : JValue) :
    List JValue → List Itinerary → Nat → List Itinerary × Nat
  | [], acc, errs => (acc, errs)
  | sched :: rest, acc, errs =>
    match sched with
    | .obj kvs =>
      match processSchedule cm pm sm fromPosV toPosV (.obj kvs) with
      | .ok it => shapeLoop cm pm sm fromPosV toPosV rest (acc ++ [it]) errs
      | .error _ => shapeLoop cm pm sm fromPosV toPosV rest acc (errs + 1)
    | _ => shapeLoop cm pm sm fromPosV toPosV rest acc (errs + 1)

/-- `shape_day_results` (normalizer.py lines 105-175).  The returned pair is
the function result together with the final `errors_count` local (reported
by the closing log line). -/
def shape_day_results (raw_data : JValue) : Except PyErr (List Itinerary × Nat) := do
  let cm ← buildCarriersMap (← pyIter (← pyGetD raw_data "carriers" (.arr [])))
  let pm ← buildPositionsMap (← pyIter (← pyGetD raw_data "positions" (.arr [])))
  let sm ← buildSegmentsMap (← pyIter (← pyGetD raw_data "segments" (.arr [])))
  let combined ← pyIter (pyOr (← pyGetD raw_data "combinedSchedules" (.arr [])) (.arr []))
  let outbound ← pyIter (pyOr (← pyGetD raw_data "outboundSchedules" (.arr [])) (.arr []))
  let inbound ← pyIter (pyOr (← pyGetD raw_data "inboundSchedules" (.arr [])) (.arr []))
  let all_schedules := combined ++ outbound ++ inbound
  let fromPosV ← pyGet raw_data "fromPosId"
  let toPosV ← pyGet raw_data "toPosId"
  .ok (shapeLoop cm pm sm fromPosV toPosV all_schedules [] 0)

/-! ## normalize_calendar_day_results (normalizer.py lines 178-262) -/

/-- `x is None`. -/
def isNull : JValue → Bool
  | .null => true
  | _ => false

/-- Python `a > b` for the compared kinds (reflection of `<`). -/
def pyGt (a b : JValue) : Except PyErr Bool :=
  pyLt b a

/-- One normalized calendar day (the dict built at normalizer.py 229-233). -/
structure NormDay where
  date : JValue
  priceCents : Rat
  currency : JValue

/-- The `stats` dict of the calendar result (normalizer.py 248-254).
`min_price_cents` and `max_price_cents` hold the raw tracked values
(`None` as `.null`). -/
structure CalStats where
  min_price_cents : JValue
  max_price_cents : JValue
  min_price : Option Rat
  max_price : Option Rat
  total_days : Nat

/-- The calendar result dict (normalizer.py 200-206 and 242-255); the early
exit carries no `stats` key, modelled with `none`. -/
structure CalendarResult where
  requestId : JValue
  fromPosId : JValue
  toPosId : JValue
  currency : JValue
  calendar : List NormDay
  stats : Option CalStats

/-- The `for` loop of `normalize_calendar_day_results` (lines 214-240),
threading the normalized days and the tracked min/max raw prices. -/
def calLoop (currency : JValue) :
    List JValue → List NormDay → JValue → JValue →
    Except PyErr (List NormDay × JValue × JValue)
  | [], days, mn, mx => .ok (days, mn, mx)
  | day :: rest, days, mn, mx => do
    let date ← pyGet day "date"
    let price ← pyGet day "priceCents"
    if isNull date || isNull price then
      calLoop currency rest days mn mx
    else do
      let mn' ← if isNull mn then pure price
        else do if ← pyLt price mn then pure price else pure mn
      let mx' ← if isNull mx then pure price
        else do if ← pyGt price mx then pure price else pure mx
      let pf ← pyFloat price
      calLoop currency rest (days ++ [⟨date, pf, currency⟩]) mn' mx'

/-- `normalize_calendar_day_results` (normalizer.py lines 178-262).  The
opening debug log evaluates `list(data.keys())`, so a non-dict payload
raises `AttributeError`; the closing info log formats
`stats["min_price"]` and `stats["max_price"]` with `:.2f`, so it raises
`TypeError` whenever either is `None` (no day kept, or a kept min/max of
zero cents). -/
def normalize_calendar_day_results (data : JValue) :
    Except PyErr (CalendarResult × Nat) := do
  let _ ← pyItems data
  let request_id ← pyGet data "requestId"
  let from_pos_id ← pyGet data "fromPosId"
  let to_pos_id ← pyGet data "toPosId"
  let currency ← pyGetD data "currency" (.str "EUR")
  let price_days ← pyGetD data "prices" (.arr [])
  if !truthy price_days then
    .ok (⟨request_id, from_pos_id, to_pos_id, currency, [], none⟩, 0)
  else do
    let _ ← pyLen price_days
    let daysList ← pyIter price_days
    let (normalized_days, mn, mx) ← calLoop currency daysList [] .null .null
    let min_price ← if truthy mn then do
        let r ← pyFloat mn
        pure (some (r / 100))
      else pure (none : Option Rat)
    let max_price ← if truthy mx then do
        let r ← pyFloat mx
        pure (some (r / 100))
      else pure (none : Option Rat)
    if min_price.isNone || max_price.isNone then
      .error (.typeError "unsupported format string passed to NoneType.__format__")
    else
      .ok (⟨request_id, from_pos_id, to_pos_id, currency, normalized_days,
            some ⟨mn, mx, min_price, max_price, normalized_days.length⟩⟩,
        normalized_days.length)

/-! ## normalize_cheapest_summary_results (normalizer.py lines 265-406) -/

/-- Python `int_acc + value` (the `+=` on the stats counters). -/
def pyAddInt (acc : Int) (v : JValue) : Except PyErr Int :=
  match v with
  | .int n => .ok (acc + n)
  | .bool b => .ok (acc + (if b then 1 else 0))
  | _ => .error (.typeError "unsupported operand types for +")

/-- Per-mode statistics (normalizer.py 344-349). -/
structure ModeStats where
  count : Int
  total_results : Int
  min_price : Option Rat
  max_price : Option Rat

/-- The `stats` dict of the cheapest summary (normalizer.py 304-313). -/
structure CheapestStats where
  total_dates : Int
  total_modes : Int
  total_results : Int
  by_mode : List (String × ModeStats)
  min_price_overall : Option Rat
  max_price_overall : Option Rat
  cheapest_date : Option String
  cheapest_mode : Option String

/-- The zero-initialised stats (normalizer.py 304-313; the early-exit
three-key stats dict of line 296 is modelled by the same zeros). -/
def initCheapestStats : CheapestStats :=
  ⟨0, 0, 0, [], none, none, none, none⟩

/-- One kept price entry (normalizer.py 371-377). -/
structure PriceEntry where
  min_price : Rat
  price_cents : JValue
  currency : String
  number_of_results : JValue
  last_updated_at : JValue

/-- The cheapest summary result dict (normalizer.py 292-296 and 387-392);
the early exit carries no `stats` key, modelled with `none`. -/
structure CheapestResult where
  summary : List (String × List (String × PriceEntry))
  currency : String
  errors : JValue
  stats : Option CheapestStats

/-- Lookup in the `by_mode` stats dict. -/
def bmGet? (l : List (String × ModeStats)) (k : String) : Option ModeStats :=
  match l.find? (fun kv => kv.1 == k) with
  | some kv => some kv.2
  | none => none

/-- Overwriting insertion in the `by_mode` stats dict. -/
def bmSet (l : List (String × ModeStats)) (k : String) (v : ModeStats) :
    List (String × ModeStats) :=
  if (l.find? (fun kv => kv.1 == k)).isSome then
    l.map (fun kv => if kv.1 == k then (k, v) else kv)
  else
    l ++ [(k, v)]

/-- Overwriting insertion in a per-date `date_prices` dict. -/
def peSet (l : List (String × PriceEntry)) (k : String) (v : PriceEntry) :
    List (String × PriceEntry) :=
  if (l.find? (fun kv => kv.1 == k)).isSome then
    l.map (fun kv => if kv.1 == k then (k, v) else kv)
  else
    l ++ [(k, v)]

/-- Overwriting insertion in the `summary_by_date` dict. -/
def sdSet (l : List (String × List (String × PriceEntry))) (k : String)
    (v : List (String × PriceEntry)) :
    List (String × List (String × PriceEntry)) :=
  if (l.find? (fun kv => kv.1 == k)).isSome then
    l.map (fun kv => if kv.1 == k then (k, v) else kv)
  else
    l ++ [(k, v)]

/-- The inner `for mode, price_info in modes_data.items()` loop of
`normalize_cheapest_summary_results` (normalizer.py 323-382). -/
def cheapModeLoop (currency date : String) :
    List (String × JValue) → CheapestStats → List (String × PriceEntry) →
    Except PyErr (CheapestStats × List (String × PriceEntry))
  | [], st, dp => .ok (st, dp)
  | (mode, price_info) :: rest, st, dp =>
    match price_info with
    | .obj kvs => do
      let pinfo := JValue.obj kvs
      let price_cents ← pyGetD pinfo "priceCents" (.int 0)
      let num_results ← pyGetD pinfo "numberOfResults" (.int 0)
      let last_updated ← pyGet pinfo "lastUpdatedAt"
      if pyEqInt price_cents 0 || pyEqInt num_results 0 then
        cheapModeLoop currency date rest st dp
      else do
        let f ← pyFloat price_cents
        let min_price := f / 100
        let tm := st.total_modes + 1
        let tr ← pyAddInt st.total_results num_results
        let ms0 := (bmGet? st.by_mode mode).getD ⟨0, 0, none, none⟩
        let msTr ← pyAddInt ms0.total_results num_results
        let msCount := ms0.count + 1
        let msMin := match ms0.min_price with
          | none => some min_price
          | some m => if min_price < m then some min_price else some m
        let msMax := match ms0.max_price with
          | none => some min_price
          | some m => if min_price > m then some min_price else some m
        let bm := bmSet st.by_mode mode ⟨msCount, msTr, msMin, msMax⟩
        let improvedMin := match st.min_price_overall with
          | none => true
          | some m => min_price < m
        let mno := if improvedMin then some min_price else st.min_price_overall
        let cd := if improvedMin then some date else st.cheapest_date
        let cmo := if improvedMin then some mode else st.cheapest_mode
        let mxo := match st.max_price_overall with
          | none => some min_price
          | some m => if min_price > m then some min_price else some m
        let entry : PriceEntry := ⟨min_price, price_cents, currency, num_results, last_updated⟩
        cheapModeLoop currency date rest
          ⟨st.total_dates, tm, tr, bm, mno, mxo, cd, cmo⟩
          (peSet dp mode entry)
    | _ => cheapModeLoop currency date rest st dp

/-- The outer `for date, modes_data in price_data.items()` loop of
`normalize_cheapest_summary_results` (normalizer.py 315-385):
`total_dates` is incremented for every date whose value is a dict,
whether or not any of its entries is kept. -/
def cheapDateLoop (currency : String) :
    List (String × JValue) → CheapestStats →
    List (String × List (String × PriceEntry)) →
    Except PyErr (CheapestStats × List (String × List (String × PriceEntry)))
  | [], st, sm => .ok (st, sm)
  | (date, modes_data) :: rest, st, sm =>
    match modes_data with
    | .obj kvs => do
      let st1 := { st with total_dates := st.total_dates + 1 }
      let (st2, dp) ← cheapModeLoop currency date kvs st1 []
      let sm' := if dp.isEmpty then sm else sdSet sm date dp
      cheapDateLoop currency rest st2 sm'
    | _ => cheapDateLoop currency rest st sm

/-- `normalize_cheapest_summary_results` (normalizer.py lines 265-406).  The
opening debug log evaluates `list(data.keys())`, so a non-dict payload
raises `AttributeError`; the closing info log formats
`stats["min_price_overall"]` and `stats["max_price_overall"]` with `:.2f`,
so it raises `TypeError` whenever no entry at all was kept (while
`price_data` itself was truthy). -/
def normalize_cheapest_summary_results (data : JValue) (currency : String) :
    Except PyErr (CheapestResult × CheapestStats) := do
  let _ ← pyItems data
  let price_data ← pyGetD data "data" (.obj [])
  let errors ← pyGet data "errors"
  if !truthy price_data then
    .ok (⟨[], currency, errors, none⟩, initCheapestStats)
  else do
    let _ ← pyLen price_data
    let items ← pyItems price_data
    let (stats, summary) ← cheapDateLoop currency items initCheapestStats []
    if stats.min_price_overall.isNone || stats.max_price_overall.isNone then
      .error (.typeError "unsupported format string passed to NoneType.__format__")
    else
      .ok (⟨summary, currency, errors, some stats⟩, stats)

/-! ## normalize_fastest_summary_results (normalizer.py lines 409-494) -/

/-- One fastest-vs-cheapest entry (normalizer.py 473-478). -/
structure FastEntry where
  fastest_duration : String
  fastest_price : Rat
  cheapest_price : Option Rat
  currency : String

/-- The fastest summary result dict (normalizer.py 432 and 491-494). -/
structure FastestResult where
  summary : List (String × List (String × FastEntry))
  currency : String

/-- Overwriting insertion in a per-date fastest summary dict. -/
def feSet (l : List (String × FastEntry)) (k : String) (v : FastEntry) :
    List (String × FastEntry) :=
  if (l.find? (fun kv => kv.1 == k)).isSome then
    l.map (fun kv => if kv.1 == k then (k, v) else kv)
  else
    l ++ [(k, v)]

/-- Overwriting insertion in the fastest `summary_by_date` dict. -/
def fdSet (l : List (String × List (String × FastEntry))) (k : String)
    (v : List (String × FastEntry)) :
    List (String × List (String × FastEntry)) :=
  if (l.find? (fun kv => kv.1 == k)).isSome then
    l.map (fun kv => if kv.1 == k then (k, v) else kv)
  else
    l ++ [(k, v)]

/-- The inner mode loop of `normalize_fastest_summary_results`
(normalizer.py 445-484). -/
def fastModeLoop (currency : String) :
    List (String × JValue) → List (String × FastEntry) →
    Except PyErr (List (String × FastEntry))
  | [], acc => .ok acc
  | (mode, mode_info) :: rest, acc =>
    match mode_info with
    | .obj kvs => do
      let minfo := JValue.obj kvs
      let num_results ← pyGetD minfo "numberOfResults" (.int 0)
      if pyEqInt num_results 0 then
        fastModeLoop currency rest acc
      else do
        let cheapest_info ← pyGetD minfo "cheapest" (.obj [])
        let fastest_info ← pyGetD minfo "fastest" (.obj [])
        let cpc ← pyGetD cheapest_info "priceCents" (.int 0)
        let cdm ← pyGetD cheapest_info "durationMinutes" (.int 0)
        let fpc ← pyGetD fastest_info "priceCents" (.int 0)
        let fdm ← pyGetD fastest_info "durationMinutes" (.int 0)
        let _ := cdm
        if pyEqInt cpc 0 && pyEqInt fpc 0 then
          fastModeLoop currency rest acc
        else do
          let cheapest_price ← (do
            if ← pyGt cpc (.int 0) then do
              let f ← pyFloat cpc
              pure (some (f / 100))
            else pure (none : Option Rat))
          let fastest_price ← (do
            if ← pyGt fpc (.int 0) then do
              let f ← pyFloat fpc
              pure (some (f / 100))
            else pure (none : Option Rat))
          let fpOut := match fastest_price with
            | none => (0 : Rat)
            | some r => if r = 0 then 0 else r
          let cpOut := match cheapest_price with
            | none => (none : Option Rat)
            | some r => if r = 0 then none else some r
          let entry : FastEntry := ⟨pyStr fdm, fpOut, cpOut, currency⟩
          fastModeLoop currency rest (feSet acc mode entry)
    | _ => fastModeLoop currency rest acc

/-- The outer date loop of `normalize_fastest_summary_results`
(normalizer.py 439-487). -/
def fastDateLoop (currency : String) :
    List (String × JValue) → List (String × List (String × FastEntry)) →
    Except PyErr (List (String × List (String × FastEntry)))
  | [], sm => .ok sm
  | (date, modes_data) :: rest, sm =>
    match modes_data with
    | .obj kvs => do
      let ds ← fastModeLoop currency kvs []
      let sm' := if ds.isEmpty then sm else fdSet sm date ds
      fastDateLoop currency rest sm'
    | _ => fastDateLoop currency rest sm

/-- `normalize_fastest_summary_results` (normalizer.py lines 409-494). -/
def normalize_fastest_summary_results (data : JValue) (currency : String) :
    Except PyErr FastestResult := do
  let price_data ← pyGetD data "data" (.obj [])
  if !truthy price_data then
    .ok ⟨[], currency⟩
  else do
    let _ ← pyLen price_data
    let items ← pyItems price_data
    let summary ← fastDateLoop currency items []
    .ok ⟨summary, currency⟩

/-! ## validator.py -/

/-- A calendar date as produced by `datetime.fromisoformat` on a date-only
string (the time components are midnight and drop out of day arithmetic). -/
structure PyDate where
  year : Nat
  month : Nat
  day : Nat
deriving DecidableEq

/-- Gregorian leap year. -/
def isLeap (y : Nat) : Bool :=
  (y % 4 == 0 && y % 100 != 0) || y % 400 == 0

/-- Days in a month. -/
def daysInMonth (y m : Nat) : Nat :=
  if m == 2 then (if isLeap y then 29 else 28)
  else if m == 4 || m == 6 || m == 9 || m == 11 then 30
  else 31

/-- The date-part parser of `datetime.fromisoformat`: exactly ten
characters, zero-padded digits, dashes at positions 4 and 7, month and day
in range. -/
def parseDate10 : List Char → Option PyDate
  | [y1, y2, y3, y4, '-', m1, m2, '-', d1, d2] =>
    if [y1, y2, y3, y4, m1, m2, d1, d2].all Char.isDigit then
      let y := digitsToNat [y1, y2, y3, y4]
      let m := digitsToNat [m1, m2]
      let d := digitsToNat [d1, d2]
      if 1 ≤ y ∧ 1 ≤ m ∧ m ≤ 12 ∧ 1 ≤ d ∧ d ≤ daysInMonth y m then
        some ⟨y, m, d⟩
      else none
    else none
  | _ => none

/-- Spec-side notion from the claim: the string parses as a bare ISO
calendar date `YYYY-MM-DD`. -/
def isoCalendarDate? (s : String) : Option PyDate :=
  parseDate10 s.data

/-- A parsed datetime: calendar date, seconds since midnight, microseconds,
and the UTC offset in microseconds when the value is offset-aware. -/
structure PyDateTime where
  date : PyDate
  secs : Nat
  micros : Nat
  tzOffMicros : Option Int
deriving DecidableEq

/-- The `_parse_hh_mm_ss_ff` time grammar of CPython:
`HH[:MM[:SS[.fff|.ffffff]]]`, each component two digits, the fractional
part exactly 3 or 6 digits. -/
def parseHMSF (cs : List Char) : Option (Nat × Nat × Nat × Nat) :=
  match cs with
  | h1 :: h2 :: rest =>
    if !(h1.isDigit && h2.isDigit) then none else
    let hh := digitsToNat [h1, h2]
    match rest with
    | [] => some (hh, 0, 0, 0)
    | ':' :: m1 :: m2 :: rest3 =>
      if !(m1.isDigit && m2.isDigit) then none else
      let mm := digitsToNat [m1, m2]
      match rest3 with
      | [] => some (hh, mm, 0, 0)
      | ':' :: s1 :: s2 :: rest5 =>
        if !(s1.isDigit && s2.isDigit) then none else
        let ss := digitsToNat [s1, s2]
        match rest5 with
        | [] => some (hh, mm, ss, 0)
        | '.' :: frac =>
          if frac.all Char.isDigit && frac.length == 3 then
            some (hh, mm, ss, digitsToNat frac * 1000)
          else if frac.all Char.isDigit && frac.length == 6 then
            some (hh, mm, ss, digitsToNat frac)
          else none
        | _ => none
      | _ => none
    | _ => none
  | _ => none

/-- The offset-aware tail of `fromisoformat`: parse the time before the
sign character at index `i`, then the offset text after it (which must be
5, 8 or 15 characters); the offset must be strictly within 24 hours. -/
def fromisoTz (d : PyDate) (tcs : List Char) (i : Nat) (sign : Int) :
    Option PyDateTime :=
  (parseHMSF (tcs.take i)).bind (fun (hh, mm, ss, us) =>
    if !(hh ≤ 23 && mm ≤ 59 && ss ≤ 59) then none
    else
      let tzcs := tcs.drop (i + 1)
      if !(tzcs.length == 5 || tzcs.length == 8 || tzcs.length == 15) then none
      else
        (parseHMSF tzcs).bind (fun (th, tm, ts, tus) =>
          let offUs : Int := sign * ((((th * 3600 + tm * 60 + ts) * 1000000 + tus : Nat)) : Int)
          if offUs.natAbs < 24 * 3600 * 1000000 then
            some ⟨d, hh * 3600 + mm * 60 + ss, us, some offUs⟩
          else none))

/-- `datetime.fromisoformat`, modelled on the dash-separated extended
grammar `YYYY-MM-DD[<sep>HH[:MM[:SS[.fff|.ffffff]]]][+HH:MM[:SS[.ffffff]]]`
(offset sign `+` or `-`) that every supported CPython accepts with
identical results: the first ten characters are the calendar date, the
character at index 10 (any character) separates an optional time string,
and the first `-` (else `+`) inside the time string starts a UTC offset
whose text must be 5, 8 or 15 characters long.  Every string this model
accepts is parsed exactly as Python parses it; in particular bare
`YYYY-MM-DD` dates and datetime strings such as `2024-06-01T10:00` are
both accepted.  Outside the model (rejected here): the leniency of the
pre-3.11 pure-Python parser to signs and spaces inside numeric fields, and
the additional ISO 8601 forms accepted from 3.11 on (basic `YYYYMMDD`
dates, `Z` suffixes, fraction lengths other than 3 or 6). -/
def fromisoformat (s : String) : Option PyDateTime :=
  match parseDate10 (s.data.take 10) with
  | none => none
  | some d =>
    match s.data.drop 10 with
    | [] => some ⟨d, 0, 0, none⟩
    | _sep :: tcs =>
      if tcs.length < 2 then none
      else
        match tcs.findIdx? (· == '-') with
        | some i => fromisoTz d tcs i (-1)
        | none =>
          match tcs.findIdx? (· == '+') with
          | some i => fromisoTz d tcs i 1
          | none =>
            (parseHMSF tcs).bind (fun (hh, mm, ss, us) =>
              if hh ≤ 23 && mm ≤ 59 && ss ≤ 59 then
                some ⟨d, hh * 3600 + mm * 60 + ss, us, none⟩
              else none)

/-- Rata-die style day number of a civil date (days since 1970-01-01),
so that `(end_date - start_date).days = toRataDie end - toRataDie start`
for midnight datetimes.  All divisions have non-negative operands. -/
def toRataDie (d : PyDate) : Int :=
  let y : Int := if d.month ≤ 2 then (d.year : Int) - 1 else (d.year : Int)
  let era : Int := y / 400
  let yoe : Int := y - era * 400
  let doy : Int := (153 * ((d.month : Int) + (if 2 < d.month then -3 else 9)) + 2) / 5
    + (d.day : Int) - 1
  let doe : Int := yoe * 365 + yoe / 4 - yoe / 100 + doy
  era * 146097 + doe - 719468

/-- `(end - start).days` of two parsed datetimes as Python computes it:
the difference in microseconds (offset-aware values are taken in UTC),
floor-divided by the microseconds of one day.  Only called on bounds of
equal awareness; mixing awareness raises `TypeError` at the caller. -/
def pyDateTimeDiffDays (ds de : PyDateTime) : Int :=
  Int.fdiv
    (((toRataDie de.date) * 86400 + (de.secs : Int)) * 1000000 + (de.micros : Int)
        - (de.tzOffMicros.getD 0)
      - (((toRataDie ds.date) * 86400 + (ds.secs : Int)) * 1000000 + (ds.micros : Int)
        - (ds.tzOffMicros.getD 0)))
    86400000000

/-- `validate_autocomplete_params` (validator.py lines 7-12): raises a plain
`ValueError` (not an `InvalidInputError`) when the stripped term is empty or
when the unstripped term has fewer than 2 characters. -/
def validate_autocomplete_params (term : String) : Except PyErr Unit :=
  if (pyStrip term).isEmpty then
    .error (.valueError "Autocomplete term cannot be empty.")
  else if term.length < 2 then
    .error (.valueError "Autocomplete term must contain at least 2 characters.")
  else .ok ()

/-- `validate_date_range` (validator.py lines 21-36): a
`datetime.fromisoformat` failure on either bound raises `InvalidInputError`
without a hint (caught `ValueError`); subtracting an offset-aware bound
from a naive one raises `TypeError`, which the function does not catch; a
range whose floored day difference exceeds `max_days` raises
`InvalidInputError` with a hint. -/
def validate_date_range (start_str end_str : String) (max_days : Int) :
    Except PyErr Unit :=
  match fromisoformat start_str, fromisoformat end_str with
  | some ds, some de =>
    if ds.tzOffMicros.isSome != de.tzOffMicros.isSome then
      .error (.typeError "cannot subtract offset-naive and offset-aware datetimes")
    else if pyDateTimeDiffDays ds de > max_days then
      .error (.invalidInput
        ("Date range exceeds the maximum of " ++ toString max_days ++ " days.")
        (some "Please provide a smaller range between date_start and date_end."))
    else .ok ()
  | _, _ => .error (.invalidInput "Invalid date format. Use YYYY-MM-DD." none)

/-! ## position_service.py: positions_autocomplete -/

/-- `AutocompleteResponse` (models.py). -/
structure AutocompleteResponse where
  best_guess : Option Position
  alternatives : List Position
deriving DecidableEq

/-- `LocationService.positions_autocomplete` (position_service.py lines
22-113), with the upstream HTTP call abstracted as the `clientGet` oracle
(its value is the decoded JSON response, its error an upstream failure).
Validation runs before the upstream call: when it fails, the `ValueError`
propagates and `clientGet` is never consulted. -/
def positions_autocomplete (clientGet : Unit → Except PyErr JValue)
    (term : String) : Except PyErr AutocompleteResponse := do
  match validate_autocomplete_params term with
  | .error e => .error e
  | .ok () => do
    let raw ← clientGet ()
    let positions_data ←
      match raw with
      | .arr xs => pure (JValue.arr xs)
      | .obj kvs => do
        let p1 ← pyGet (.obj kvs) "positions"
        let p2 ← pyGet (.obj kvs) "results"
        let p3 ← pyGet (.obj kvs) "data"
        let p4 ← pyGet (.obj kvs) "items"
        let p5 ← pyGet (.obj kvs) "locations"
        pure (pyOr p1 (pyOr p2 (pyOr p3 (pyOr p4 (pyOr p5 (.arr []))))))
      | _ => pure (JValue.arr [])
    let _ ← pyLen positions_data
    let lst ← pyIter positions_data
    let (candidates, _skipped) ← normalize_positions lst
    let best_guess := match candidates.find? (fun p => p.type == "location") with
      | some p => some p
      | none => candidates.head?
    let alternatives := candidates.filter (fun p =>
      match best_guess with
      | none => true
      | some bg => p.id != bg.id)
    .ok ⟨best_guess, alternatives⟩

/-! ## search_service.py -/

/-- The four optional routing inputs of `BaseSearchParams` consumed by
`_ensure_position_ids`. -/
structure RouteParams where
  from_id : Option Int
  to_id : Option Int
  from_term : Option String
  to_term : Option String

/-- Python truthiness of an `Optional[int]` field (`None` and `0` falsy). -/
def truthyOptInt : Option Int → Bool
  | none => false
  | some n => n != 0

/-- Python truthiness of an `Optional[str]` field (`None` and `""` falsy). -/
def truthyOptStr : Option String → Bool
  | none => false
  | some s => !s.isEmpty

/-- `SearchService._ensure_position_ids` (search_service.py lines 251-290),
with `resolve_positions` abstracted as the `resolver` oracle returning the
`suggestion` pair (or failing).  Branch selection uses Python truthiness:
a zero id or an empty term counts as absent.  Every exception inside the
resolution `try` block, including the internally raised
`LocationResolutionError`, is re-wrapped into a `LocationResolutionError`
with the same message. -/
def ensure_position_ids
    (resolver : String → String → Except PyErr (Option Int × Option Int))
    (p : RouteParams) : Except PyErr (Int × Int) :=
  if truthyOptInt p.from_id && truthyOptInt p.to_id then
    .ok (p.from_id.getD 0, p.to_id.getD 0)
  else if truthyOptStr p.from_term && truthyOptStr p.to_term then
    let ft := p.from_term.getD ""
    let tt := p.to_term.getD ""
    let msg := "Could not resolve locations for '" ++ ft ++ "' → '" ++ tt ++ "'"
    match resolver ft tt with
    | .error _ => .error (.locationResolution msg)
    | .ok (fid, tid) =>
      if !truthyOptInt fid || !truthyOptInt tid then
        .error (.locationResolution msg)
      else
        .ok (fid.getD 0, tid.getD 0)
  else
    .error (.locationResolution
      "Must provide either (from_id, to_id) or (from_term, to_term)")

/-- `SearchDayResultsResponse` (models.py). -/
structure SearchDayResultsResponse where
  resolved_from_id : Int
  resolved_to_id : Int
  results : List Itinerary
  note : String

/-- The deterministic tail of `SearchService.search_day_results`
(search_service.py lines 56-65), after position resolution and the upstream
call: shape the raw payload, log `results[0]` (an `IndexError` on an empty
list), and build the response. -/
def search_day_results_shape (raw_data : JValue) (from_id to_id : Int) :
    Except PyErr SearchDayResultsResponse := do
  let (results, _errs) ← shape_day_results raw_data
  match results with
  | [] => .error (.indexError "list index out of range")
  | _ :: _ =>
    .ok ⟨from_id, to_id, results,
      "Prices are estimates and subject to change. Times are local to departure/arrival cities."⟩

/-! ## Spec-side definitions used by the claim theorems -/

/-- The name value chosen by the `displayName`/`defaultName`/`name` or-chain
(normalizer.py line 32). -/
def chosenName (kvs : List (String × JValue)) : JValue :=
  pyOr ((alistGet? kvs "displayName").getD .null)
    (pyOr ((alistGet? kvs "defaultName").getD .null) ((alistGet? kvs "name").getD .null))

/-- The value is a JSON string. -/
def isStrV : JValue → Bool
  | .str _ => true
  | _ => false

/-- The value is a JSON string or null (valid for an `Optional[str]` field). -/
def isOptStrV : JValue → Bool
  | .null => true
  | .str _ => true
  | _ => false

/-- Well-formedness of one raw position record, sufficient for
`normalize_positions` not to raise on it: the record is a JSON object (or a
falsy placeholder, which is skipped), and if it reaches `Position`
construction its chosen name, `type` and `countryCode` values are
string-typed as the pydantic model requires. -/
def wellFormedRecord (e : JValue) : Bool :=
  match e with
  | .obj kvs =>
    kvs.isEmpty
    || !(kvs.any (fun kv => kv.1 == "positionId"))
    || !truthy (chosenName kvs)
    || (isStrV (chosenName kvs)
        && isStrV ((alistGet? kvs "type").getD (.str "unknown"))
        && isOptStrV ((alistGet? kvs "countryCode").getD .null))
  | v => !truthy v

/-- The skip conditions as the spec enumerates them: the record is empty
(falsy), lacks a `positionId` key, lacks a usable (truthy)
`displayName`/`defaultName`/`name`, or its `positionId` does not parse as
an integer. -/
def skipSpec (e : JValue) : Bool :=
  match e with
  | .obj kvs =>
    kvs.isEmpty
    || !(kvs.any (fun kv => kv.1 == "positionId"))
    || !truthy (chosenName kvs)
    || (match pyInt ((alistGet? kvs "positionId").getD .null) with
        | .ok _ => false | .error _ => true)
  | v => !truthy v

/-- The kept-or-skipped outcome of one record when processing does not
raise. -/
def recOpt (e : JValue) : Option Position :=
  match processRecord e with
  | .ok o => o
  | .error _ => none

/-- The `priceCents` value of a (date, mode) entry, with the dict-get
default `0`. -/
def pcOf (pinfo : JValue) : JValue :=
  match pinfo with
  | .obj kvs => (alistGet? kvs "priceCents").getD (.int 0)
  | _ => .int 0

/-- The `numberOfResults` value of a (date, mode) entry, with the dict-get
default `0`. -/
def nrOf (pinfo : JValue) : JValue :=
  match pinfo with
  | .obj kvs => (alistGet? kvs "numberOfResults").getD (.int 0)
  | _ => .int 0

/-- Spec-side kept test for a cheapest-summary (date, mode) entry: kept iff
neither `priceCents` nor `numberOfResults` equals 0 (non-dict entries carry
no data and are never kept). -/
def keptB (pinfo : JValue) : Bool :=
  match pinfo with
  | .obj _ => !(pyEqInt (pcOf pinfo) 0 || pyEqInt (nrOf pinfo) 0)
  | _ => false

/-- The kept (mode, info) entries of one date. -/
def keptModes (mkvs : List (String × JValue)) : List (String × JValue) :=
  mkvs.filter (fun kv => keptB kv.2)

/-- The integer carried by an int-like JSON value (0 otherwise; the code
raises before summing a non-int-like `numberOfResults`). -/
def jIntD : JValue → Int
  | .int n => n
  | .bool b => if b then 1 else 0
  | _ => 0

/-- Sum of `numberOfResults` over the kept entries of one date. -/
def sumNR (mkvs : List (String × JValue)) : Int :=
  ((keptModes mkvs).map (fun kv => jIntD (nrOf kv.2))).sum

/-- The dates of a cheapest-summary payload whose value is a dict, with
their entries (non-dict dates are skipped without counting). -/
def dictDates (items : List (String × JValue)) :
    List (String × List (String × JValue)) :=
  items.filterMap (fun kv => match kv.2 with | .obj m => some (kv.1, m) | _ => none)

/-- The dict-valued dates reached by the cheapest-summary loops (empty when
the payload or its `data` member is not a truthy dict). -/
def cheapestDataEntries (data : JValue) : List (String × List (String × JValue)) :=
  match data with
  | .obj dkvs =>
    match (alistGet? dkvs "data").getD (.obj []) with
    | .obj items => dictDates items
    | _ => []
  | _ => []

/-- Number of kept (date, mode) entries across all dict dates. -/
def totalKeptModes (entries : List (String × List (String × JValue))) : Int :=
  (entries.map (fun e => ((keptModes e.2).length : Int))).sum

/-- Sum of `numberOfResults` over all kept (date, mode) entries. -/
def totalKeptResults (entries : List (String × List (String × JValue))) : Int :=
  (entries.map (fun e => sumNR e.2)).sum

/-! ## Claim theorems -/

/-- Monad-bind reduction for `Except` on a success value. -/
@[simp] theorem okBind {α β : Type} (a : α) (f : α → Except PyErr β) :
    (Except.ok a >>= f : Except PyErr β) = f a := rfl

/-- Monad-bind reduction for `Except` on an error value. -/
@[simp] theorem errBind {α β : Type} (e : PyErr) (f : α → Except PyErr β) :
    (Except.error e >>= f : Except PyErr β) = .error e := rfl

/-- `pure` is `Except.ok`. -/
@[simp] theorem pureOk {α : Type} (a : α) : (pure a : Except PyErr α) = .ok a := rfl

/-- Lookup in an empty dict. -/
theorem alistGet?_nil (k : String) : alistGet? [] k = none := rfl

/-- A value passing `isStrV` is a string. -/
theorem isStrV_exists {v : JValue} (h : isStrV v = true) : ∃ s, v = .str s := by
  cases v <;> simp [isStrV] at h ⊢

/-- A value passing `isOptStrV` is null or a string. -/
theorem isOptStrV_cases {v : JValue} (h : isOptStrV v = true) :
    v = .null ∨ ∃ s, v = .str s := by
  cases v <;> simp [isOptStrV] at h ⊢

/-- Reduction of `processRecord` on a non-empty record containing a
`positionId` key. -/
theorem processRecord_obj_reduce (kvs : List (String × JValue))
    (h1 : kvs.isEmpty = false)
    (h2 : (kvs.any (fun kv => kv.1 == "positionId")) = true) :
    processRecord (.obj kvs) =
      (if (!truthy (chosenName kvs)) = true then .ok none
       else match pyInt ((alistGet? kvs "positionId").getD .null) with
       | .error _ => .ok none
       | .ok pid =>
         (mkPosition pid (chosenName kvs) ((alistGet? kvs "type").getD (.str "unknown"))
           ((alistGet? kvs "countryCode").getD .null)).bind (fun p => .ok (some p))) := by
  simp only [processRecord, truthy, h1, Bool.not_false, Bool.false_eq_true, if_false,
    pyContains, h2, okBind, Bool.not_true, pyGet, pyGetD]
  rfl

/-- On a well-formed record, per-record processing returns normally, and
skipping matches the spec conditions. -/
theorem processRecord_wf (e : JValue) (hw : wellFormedRecord e = true) :
    processRecord e = .ok (recOpt e) ∧ (recOpt e = none ↔ skipSpec e = true) := by
  cases e with
  | obj kvs =>
    cases hemp : kvs.isEmpty with
    | true => simp [processRecord, recOpt, skipSpec, truthy, hemp]
    | false =>
      cases hmem : kvs.any (fun kv => kv.1 == "positionId") with
      | false =>
        simp [processRecord, recOpt, skipSpec, truthy, hemp, pyContains, hmem, pyKeys]
      | true =>
        have hred := processRecord_obj_reduce kvs hemp hmem
        cases hname : truthy (chosenName kvs) with
        | false =>
          rw [hred, if_pos (by simp [hname])]
          simp [recOpt, hred, skipSpec, hemp, hmem, hname]
        | true =>
          rw [hred, if_neg (by simp [hname])]
          cases hpi : pyInt ((alistGet? kvs "positionId").getD .null) with
          | error err =>
            simp [recOpt, hred, hname, hpi, skipSpec, hemp, hmem]
          | ok pid =>
            simp only [wellFormedRecord, hemp, hmem, hname, Bool.not_true, Bool.not_false,
              Bool.false_or, Bool.or_false, Bool.and_eq_true] at hw
            obtain ⟨⟨hnstr, htstr⟩, hcstr⟩ := hw
            obtain ⟨s, hs⟩ := isStrV_exists hnstr
            obtain ⟨t, htv⟩ := isStrV_exists htstr
            rw [hs] at hname
            rcases isOptStrV_cases hcstr with hcc | ⟨c, hcc⟩ <;>
              simp [recOpt, hred, hname, hpi, hs, htv, hcc, mkPosition, asStr, asOptStr,
                skipSpec, hemp, hmem, Except.bind, truthy] <;>
              simp [truthy] at hname <;> simp [hname]
  | null => simp [processRecord, recOpt, skipSpec, truthy]
  | bool b =>
    simp [wellFormedRecord, truthy] at hw
    simp [processRecord, recOpt, skipSpec, truthy, hw]
  | int n =>
    simp [wellFormedRecord, truthy] at hw
    simp [processRecord, recOpt, skipSpec, truthy, hw]
  | str s =>
    simp [wellFormedRecord, truthy] at hw
    simp [processRecord, recOpt, skipSpec, truthy, hw]
  | arr xs =>
    simp [wellFormedRecord, truthy] at hw
    simp [processRecord, recOpt, skipSpec, truthy, hw]

/-- Kept records plus skipped records partition the input. -/
theorem length_filterMap_recOpt (l : List JValue) :
    (l.filterMap recOpt).length + l.countP (fun e => (recOpt e).isNone) = l.length := by
  induction l with
  | nil => simp
  | cons e rest ih =>
    cases h : recOpt e with
    | none =>
      simp [List.filterMap_cons, List.countP_cons, h]
      omega
    | some p =>
      simp [List.filterMap_cons, List.countP_cons, h]
      omega

/-- The `normalize_positions` loop on well-formed records computes the
filter-map of per-record processing and counts the skips. -/
theorem npLoop_wf (l : List JValue) (acc : List Position) (k : Nat)
    (hw : ∀ e ∈ l, wellFormedRecord e = true) :
    npLoop l acc k = .ok (acc ++ l.filterMap recOpt,
      k + l.countP (fun e => (recOpt e).isNone)) := by
  induction l generalizing acc k with
  | nil => simp [npLoop]
  | cons e rest ih =>
    have hpe := (processRecord_wf e (hw e (by simp))).1
    have hw2 : ∀ x ∈ rest, wellFormedRecord x = true := fun x hx => hw x (by simp [hx])
    cases h : recOpt e with
    | none =>
      rw [h] at hpe
      simp only [npLoop, hpe, okBind]
      rw [ih _ _ hw2]
      simp only [List.filterMap_cons, List.countP_cons, h, Option.isNone_none]
      congr 1
      ext
      · rfl
      · simp
        omega
    | some p =>
      rw [h] at hpe
      simp only [npLoop, hpe, okBind]
      rw [ih _ _ hw2]
      simp [List.filterMap_cons, h, List.countP_cons]

/-- A constructed `Position` carries the id passed to it. -/
theorem mkPosition_id (pid : Int) (a b c : JValue) (q : Position)
    (h : mkPosition pid a b c = .ok q) : q.id = pid := by
  unfold mkPosition at h
  cases ha : asStr "name" a with
  | error e => rw [ha] at h; simp at h
  | ok n =>
    rw [ha] at h
    simp only [okBind] at h
    cases hb : asStr "type" b with
    | error e => rw [hb] at h; simp at h
    | ok t =>
      rw [hb] at h
      simp only [okBind] at h
      cases hc : asOptStr "countryCode" c with
      | error e => rw [hc] at h; simp at h
      | ok cc =>
        rw [hc] at h
        simp only [okBind] at h
        simp at h
        rw [← h]

/-- A kept record yields the `int()` parse of its `positionId` as the id. -/
theorem processRecord_ok_some (rec : JValue) (p : Position)
    (h : processRecord rec = .ok (some p)) :
    ∃ v, pyGet rec "positionId" = .ok v ∧ pyInt v = .ok p.id := by
  cases rec with
  | null => simp [processRecord, truthy] at h
  | bool b =>
    cases b
    · simp [processRecord, truthy] at h
    · simp [processRecord, truthy, pyContains] at h
  | int n =>
    by_cases hn : n = 0
    · simp [processRecord, truthy, hn] at h
    · simp [processRecord, truthy, hn, pyContains] at h
  | str s =>
    by_cases hs : s.isEmpty
    · simp [processRecord, truthy, hs] at h
    · by_cases hm : charsInfixOf "positionId".data s.data
      · simp [processRecord, truthy, hs, pyContains, hm, pyGet, pyGetD] at h
      · simp [processRecord, truthy, hs, pyContains, hm, pyKeys] at h
  | arr xs =>
    by_cases hx : xs.isEmpty
    · simp [processRecord, truthy, hx] at h
    · by_cases hm : xs.any (fun x => pyEqStr x "positionId")
      · simp [processRecord, truthy, hx, pyContains, hm, pyGet, pyGetD] at h
      · simp [processRecord, truthy, hx, pyContains, hm, pyKeys] at h
  | obj kvs =>
    cases hemp : kvs.isEmpty with
    | true => simp [processRecord, truthy, hemp] at h
    | false =>
      cases hmem : kvs.any (fun kv => kv.1 == "positionId") with
      | false => simp [processRecord, truthy, hemp, pyContains, hmem, pyKeys] at h
      | true =>
        rw [processRecord_obj_reduce kvs hemp hmem] at h
        cases hname : truthy (chosenName kvs) with
        | false => rw [if_pos (by simp [hname])] at h; simp at h
        | true =>
          rw [if_neg (by simp [hname])] at h
          cases hpi : pyInt ((alistGet? kvs "positionId").getD .null) with
          | error e => rw [hpi] at h; simp at h
          | ok pid =>
            rw [hpi] at h
            have h2 : (mkPosition pid (chosenName kvs)
                ((alistGet? kvs "type").getD (.str "unknown"))
                ((alistGet? kvs "countryCode").getD .null)).bind
                (fun q => Except.ok (some q)) = Except.ok (some p) := h
            cases hmk : mkPosition pid (chosenName kvs)
                ((alistGet? kvs "type").getD (.str "unknown"))
                ((alistGet? kvs "countryCode").getD .null) with
            | error e => rw [hmk] at h2; simp [Except.bind] at h2
            | ok q =>
              rw [hmk] at h2
              simp [Except.bind] at h2
              refine ⟨(alistGet? kvs "positionId").getD .null, rfl, ?_⟩
              rw [← h2]
              rw [mkPosition_id pid _ _ _ q hmk]
              exact hpi

/-- Every position in the loop output comes from the accumulator or from a
kept input record. -/
theorem npLoop_mem (l : List JValue) (acc : List Position) (k : Nat)
    (ps : List Position) (kf : Nat) (h : npLoop l acc k = .ok (ps, kf)) :
    ∀ p ∈ ps, p ∈ acc ∨ ∃ rec ∈ l, processRecord rec = .ok (some p) := by
  induction l generalizing acc k with
  | nil =>
    intro p hp
    simp [npLoop] at h
    rw [← h.1] at hp
    exact Or.inl hp
  | cons e rest ih =>
    intro p hp
    cases hpe : processRecord e with
    | error err => simp [npLoop, hpe] at h
    | ok o =>
      cases o with
      | none =>
        simp only [npLoop, hpe, okBind] at h
        rcases ih _ _ h p hp with hacc | ⟨rec, hrec, hpr⟩
        · exact Or.inl hacc
        · exact Or.inr ⟨rec, by simp [hrec], hpr⟩
      | some q =>
        simp only [npLoop, hpe, okBind] at h
        rcases ih _ _ h p hp with hacc | ⟨rec, hrec, hpr⟩
        · rcases List.mem_append.mp hacc with hl | hr
          · exact Or.inl hl
          · have hpq : p = q := by simpa using hr
            exact Or.inr ⟨e, by simp, by rw [hpq]; exact hpe⟩
        · exact Or.inr ⟨rec, by simp [hrec], hpr⟩

/-- Iterating `xs or []` yields the elements of `xs`. -/
theorem pyIter_or_arr (xs : List JValue) :
    pyIter (pyOr (.arr xs) (.arr [])) = .ok xs := by
  cases xs <;> rfl

/-- When no segment id is found in the segments map, the comprehension
keeps nothing. -/
theorem filterSegmentIds_no_match (sm : List (String × JValue)) (sids : List JValue)
    (h : ∀ sid ∈ sids, pyHashMem sid sm = .ok false) :
    filterSegmentIds sm sids = .ok [] := by
  induction sids with
  | nil => rfl
  | cons sid rest ih =>
    have h1 := h sid (by simp)
    have h2 : ∀ x ∈ rest, pyHashMem x sm = .ok false := fun x hx => h x (by simp [hx])
    simp [filterSegmentIds, h1, ih h2]

/-- A successful `+=` adds the integer carried by the value. -/
theorem pyAddInt_ok {a : Int} {v : JValue} {t : Int} (h : pyAddInt a v = .ok t) :
    t = a + jIntD v := by
  cases v with
  | int n => simp [pyAddInt, jIntD] at h ⊢; omega
  | bool b => cases b <;> simp [pyAddInt, jIntD] at h ⊢ <;> omega
  | null => simp [pyAddInt] at h
  | str s => simp [pyAddInt] at h
  | arr xs => simp [pyAddInt] at h
  | obj kvs => simp [pyAddInt] at h

/-- The inner cheapest-summary loop adds one `total_modes` and the entry
results for each kept entry and leaves `total_dates` unchanged. -/
theorem cheapModeLoop_stats (currency date : String)
    (mkvs : List (String × JValue)) (st : CheapestStats)
    (dp : List (String × PriceEntry)) (st2 : CheapestStats)
    (dp2 : List (String × PriceEntry))
    (h : cheapModeLoop currency date mkvs st dp = .ok (st2, dp2)) :
    st2.total_dates = st.total_dates
    ∧ st2.total_modes = st.total_modes + ((keptModes mkvs).length : Int)
    ∧ st2.total_results = st.total_results + sumNR mkvs := by
  induction mkvs generalizing st dp with
  | nil =>
    simp [cheapModeLoop] at h
    rw [← h.1]
    simp [keptModes, sumNR]
  | cons kv rest ih =>
    obtain ⟨mode, pinfo⟩ := kv
    cases pinfo with
    | obj kvs2 =>
      simp only [cheapModeLoop, pyGet, pyGetD, okBind] at h
      cases hskip : (pyEqInt ((alistGet? kvs2 "priceCents").getD (.int 0)) 0
          || pyEqInt ((alistGet? kvs2 "numberOfResults").getD (.int 0)) 0) with
      | true =>
        rw [if_pos (by rw [hskip])] at h
        have hrec := ih _ _ h
        have hk : keptB (.obj kvs2) = false := by
          simp only [keptB, pcOf, nrOf]
          rw [hskip]
          rfl
        simp [keptModes, List.filter_cons, hk, sumNR] at hrec ⊢
        exact hrec
      | false =>
        rw [if_neg (by rw [hskip]; exact Bool.false_ne_true)] at h
        cases hf : pyFloat ((alistGet? kvs2 "priceCents").getD (.int 0)) with
        | error e => rw [hf] at h; simp at h
        | ok f =>
          rw [hf] at h
          simp only [okBind] at h
          cases ha : pyAddInt st.total_results
              ((alistGet? kvs2 "numberOfResults").getD (.int 0)) with
          | error e => rw [ha] at h; simp at h
          | ok tr =>
            rw [ha] at h
            simp only [okBind] at h
            cases ha2 : pyAddInt (((bmGet? st.by_mode mode).getD ⟨0, 0, none, none⟩).total_results)
                ((alistGet? kvs2 "numberOfResults").getD (.int 0)) with
            | error e => rw [ha2] at h; simp at h
            | ok mtr =>
              rw [ha2] at h
              simp only [okBind] at h
              have hrec := ih _ _ h
              have hk : keptB (.obj kvs2) = true := by
                simp only [keptB, pcOf, nrOf]
                rw [hskip]
                rfl
              have htr := pyAddInt_ok ha
              simp only [keptModes, List.filter_cons, hk, if_pos, sumNR, List.map_cons,
                List.sum_cons, List.length_cons] at hrec ⊢
              refine ⟨hrec.1, ?_, ?_⟩
              · rw [hrec.2.1]
                push_cast
                ring
              · rw [hrec.2.2]
                simp only [nrOf]
                omega
    | null =>
      simp only [cheapModeLoop] at h
      have hrec := ih _ _ h
      simpa [keptModes, List.filter_cons, keptB, sumNR] using hrec
    | bool b =>
      simp only [cheapModeLoop] at h
      have hrec := ih _ _ h
      simpa [keptModes, List.filter_cons, keptB, sumNR] using hrec
    | int n =>
      simp only [cheapModeLoop] at h
      have hrec := ih _ _ h
      simpa [keptModes, List.filter_cons, keptB, sumNR] using hrec
    | str s =>
      simp only [cheapModeLoop] at h
      have hrec := ih _ _ h
      simpa [keptModes, List.filter_cons, keptB, sumNR] using hrec
    | arr xs =>
      simp only [cheapModeLoop] at h
      have hrec := ih _ _ h
      simpa [keptModes, List.filter_cons, keptB, sumNR] using hrec

/-- The outer cheapest-summary loop adds one `total_dates` per dict-valued
date and accumulates the kept counters. -/
theorem cheapDateLoop_stats (currency : String)
    (items : List (String × JValue)) (st : CheapestStats)
    (sm : List (String × List (String × PriceEntry))) (st2 : CheapestStats)
    (sm2 : List (String × List (String × PriceEntry)))
    (h : cheapDateLoop currency items st sm = .ok (st2, sm2)) :
    st2.total_dates = st.total_dates + ((dictDates items).length : Int)
    ∧ st2.total_modes = st.total_modes + totalKeptModes (dictDates items)
    ∧ st2.total_results = st.total_results + totalKeptResults (dictDates items) := by
  induction items generalizing st sm with
  | nil =>
    simp [cheapDateLoop] at h
    rw [← h.1]
    simp [dictDates, totalKeptModes, totalKeptResults]
  | cons kv rest ih =>
    obtain ⟨date, mdata⟩ := kv
    cases mdata with
    | obj kvs2 =>
      simp only [cheapDateLoop] at h
      cases hm : cheapModeLoop currency date kvs2
          { st with total_dates := st.total_dates + 1 } [] with
      | error e => rw [hm] at h; simp at h
      | ok p =>
        obtain ⟨stm, dp⟩ := p
        rw [hm] at h
        simp only [okBind] at h
        have hinner := cheapModeLoop_stats _ _ _ _ _ _ _ hm
        have hrec := ih _ _ h
        obtain ⟨hi1, hi2, hi3⟩ := hinner
        obtain ⟨hr1, hr2, hr3⟩ := hrec
        simp only [dictDates, List.filterMap_cons] at hr1 hr2 hr3 ⊢
        simp only [totalKeptModes, totalKeptResults, List.map_cons, List.sum_cons,
          List.length_cons] at hr2 hr3 ⊢
        refine ⟨?_, ?_, ?_⟩
        · rw [hr1, hi1]
          simp
          omega
        · rw [hr2, hi2]
          simp [totalKeptModes]
          ring
        · rw [hr3, hi3]
          simp [totalKeptResults]
          ring
    | null =>
      simp only [cheapDateLoop] at h
      have hrec := ih _ _ h
      simpa [dictDates, List.filterMap_cons, totalKeptModes, totalKeptResults] using hrec
    | bool b =>
      simp only [cheapDateLoop] at h
      have hrec := ih _ _ h
      simpa [dictDates, List.filterMap_cons, totalKeptModes, totalKeptResults] using hrec
    | int n =>
      simp only [cheapDateLoop] at h
      have hrec := ih _ _ h
      simpa [dictDates, List.filterMap_cons, totalKeptModes, totalKeptResults] using hrec
    | str s =>
      simp only [cheapDateLoop] at h
      have hrec := ih _ _ h
      simpa [dictDates, List.filterMap_cons, totalKeptModes, totalKeptResults] using hrec
    | arr xs =>
      simp only [cheapDateLoop] at h
      have hrec := ih _ _ h
      simpa [dictDates, List.filterMap_cons, totalKeptModes, totalKeptResults] using hrec


/-- C1: the claim states that normalize_calendar_day_results and
normalize_cheapest_summary_results isolate per-record failures and never
raise, even when the raw record list/map is non-empty but every entry is
skipped.  The code violates this: when every entry is skipped the closing
logger.info f-string formats a `None` min/max price with `:.2f` and raises
`TypeError`.  This theorem evaluates both functions at such failing inputs:
a calendar payload whose only day lacks `priceCents` (skipped), and a
cheapest payload whose only entry has `priceCents == 0` (skipped). -/
theorem C1_all_skipped_payloads_raise :
    normalize_calendar_day_results
      (.obj [("prices", .arr [.obj [("date", .str "2024-01-01")]])]) =
      .error (.typeError "unsupported format string passed to NoneType.__format__")
    ∧ normalize_cheapest_summary_results
      (.obj [("data", .obj [("2024-01-01",
        .obj [("bus", .obj [("priceCents", .int 0), ("numberOfResults", .int 5)])])])])
      "EUR" =
      .error (.typeError "unsupported format string passed to NoneType.__format__") :=
  ⟨rfl, rfl⟩

/-- C2 counterexample: a schedule whose `segmentIDs` match no segment is
kept, but its `from_term`/`to_term` are the dict-get default `"Unknown"`,
not the empty string the claim states (the fallback position id `""` is
looked up in `positions_map` with default `"Unknown"`). -/
theorem C2_counterexample :
    (shape_day_results (.obj [("segments", .arr []),
        ("combinedSchedules", .arr [.obj [("segmentIDs", .arr [.str "99"]),
          ("departureAt", .str "2024-01-01T10:00"),
          ("arrivalAt", .str "2024-01-01T12:00")]])])).map
      (fun p => p.1.map (fun it => (it.from_term, it.to_term, it.mode, it.duration))) =
      .ok [("Unknown", "Unknown", "unknown", "0")]
    ∧ ("Unknown" : String) ≠ "" :=
  ⟨rfl, by decide⟩

/-- C5 counterexample: the claim states `validate_date_range` fails with
BadInput when either bound does not parse as an ISO calendar date
(`YYYY-MM-DD`).  `datetime.fromisoformat` also accepts datetime strings:
`"2024-06-01T10:00"` is not a calendar date, yet the call parses it and
succeeds (floored day difference 0 ≤ 31) instead of failing BadInput. -/
theorem C5_counterexample :
    validate_date_range "2024-06-01T10:00" "2024-06-02" 31 = .ok ()
    ∧ isoCalendarDate? "2024-06-01T10:00" = none
    ∧ fromisoformat "2024-06-01T10:00" = some ⟨⟨2024, 6, 1⟩, 36000, 0, none⟩ :=
  ⟨rfl, rfl, rfl⟩

/-- C5 amended: `validate_date_range` fails with the hint-free
`InvalidInputError` (BadInput) exactly when either bound is rejected by
`datetime.fromisoformat` - which accepts not only `YYYY-MM-DD` calendar
dates but also datetime strings, so such bounds are range-checked rather
than rejected; on two parsed bounds of equal awareness it fails with the
hint-carrying `InvalidInputError` (RangeExceeded) exactly when the floored
day difference `(end - start).days` exceeds `max_days`, succeeds
otherwise, and never rejects an end before the start when `max_days` is
non-negative; an offset-aware bound mixed with a naive one raises
`TypeError` from the subtraction instead. -/
theorem C5_validate_date_range_behaviour (s e : String) (m : Int) :
    (validate_date_range s e m =
        .error (.invalidInput "Invalid date format. Use YYYY-MM-DD." none)
      ↔ (fromisoformat s = none ∨ fromisoformat e = none))
    ∧ (∀ ds de, fromisoformat s = some ds → fromisoformat e = some de →
        ds.tzOffMicros.isSome = de.tzOffMicros.isSome →
        (validate_date_range s e m =
            .error (.invalidInput
              ("Date range exceeds the maximum of " ++ toString m ++ " days.")
              (some "Please provide a smaller range between date_start and date_end."))
          ↔ pyDateTimeDiffDays ds de > m))
    ∧ (∀ ds de, fromisoformat s = some ds → fromisoformat e = some de →
        ds.tzOffMicros.isSome = de.tzOffMicros.isSome →
        pyDateTimeDiffDays ds de ≤ m → validate_date_range s e m = .ok ())
    ∧ (0 ≤ m → ∀ ds de, fromisoformat s = some ds → fromisoformat e = some de →
        ds.tzOffMicros.isSome = de.tzOffMicros.isSome →
        pyDateTimeDiffDays ds de < 0 → validate_date_range s e m = .ok ())
    ∧ (∀ ds de, fromisoformat s = some ds → fromisoformat e = some de →
        ds.tzOffMicros.isSome ≠ de.tzOffMicros.isSome →
        validate_date_range s e m =
          .error (.typeError "cannot subtract offset-naive and offset-aware datetimes")) := by
  refine ⟨?_, ?_, ?_, ?_, ?_⟩
  · cases hs : fromisoformat s with
    | none => simp [validate_date_range, hs]
    | some ds =>
      cases he : fromisoformat e with
      | none => simp [validate_date_range, hs, he]
      | some de =>
        simp only [validate_date_range, hs, he]
        cases haw : (ds.tzOffMicros.isSome != de.tzOffMicros.isSome) with
        | true => simp [haw]
        | false =>
          simp only [haw, Bool.false_eq_true, if_false]
          by_cases hgt : pyDateTimeDiffDays ds de > m
          · simp [if_pos hgt]
          · simp [if_neg hgt]
  · intro ds de hs he hawEq
    simp only [validate_date_range, hs, he]
    rw [hawEq]
    simp only [bne_self_eq_false, Bool.false_eq_true, if_false]
    by_cases hgt : pyDateTimeDiffDays ds de > m
    · simp [if_pos hgt, hgt]
    · simp [if_neg hgt, hgt]
  · intro ds de hs he hawEq hle
    simp only [validate_date_range, hs, he]
    rw [hawEq]
    simp only [bne_self_eq_false, Bool.false_eq_true, if_false]
    rw [if_neg (by omega)]
  · intro hm ds de hs he hawEq hlt
    simp only [validate_date_range, hs, he]
    rw [hawEq]
    simp only [bne_self_eq_false, Bool.false_eq_true, if_false]
    rw [if_neg (by omega)]
  · intro ds de hs he hawNe
    simp only [validate_date_range, hs, he]
    rw [if_pos (by simp [bne_iff_ne, hawNe])]

/-- C5 witness: the spec scenarios and the awareness-mixing case evaluated
concretely. -/
theorem C5_witness :
    fromisoformat "2024-06-01" = some ⟨⟨2024, 6, 1⟩, 0, 0, none⟩
    ∧ fromisoformat "2024-07-05" = some ⟨⟨2024, 7, 5⟩, 0, 0, none⟩
    ∧ pyDateTimeDiffDays ⟨⟨2024, 6, 1⟩, 0, 0, none⟩ ⟨⟨2024, 7, 5⟩, 0, 0, none⟩ = 34
    ∧ validate_date_range "2024-06-01" "2024-07-05" 31 =
        .error (.invalidInput "Date range exceeds the maximum of 31 days."
          (some "Please provide a smaller range between date_start and date_end."))
    ∧ validate_date_range "2024-06-01" "2024-06-20" 31 = .ok ()
    ∧ validate_date_range "2024-13-01" "2024-06-20" 31 =
        .error (.invalidInput "Invalid date format. Use YYYY-MM-DD." none)
    ∧ validate_date_range "2024-07-05" "2024-06-01" 31 = .ok ()
    ∧ validate_date_range "2024-06-01T10:00+05:00" "2024-06-02" 31 =
        .error (.typeError "cannot subtract offset-naive and offset-aware datetimes") := by
  refine ⟨by decide, by decide, by decide, ?_, ?_, ?_, ?_, ?_⟩
  · exact ((C5_validate_date_range_behaviour "2024-06-01" "2024-07-05" 31).2.1
      ⟨⟨2024, 6, 1⟩, 0, 0, none⟩ ⟨⟨2024, 7, 5⟩, 0, 0, none⟩
      (by decide) (by decide) (by decide)).mpr (by decide)
  · exact (C5_validate_date_range_behaviour "2024-06-01" "2024-06-20" 31).2.2.1
      ⟨⟨2024, 6, 1⟩, 0, 0, none⟩ ⟨⟨2024, 6, 20⟩, 0, 0, none⟩
      (by decide) (by decide) (by decide) (by decide)
  · exact (C5_validate_date_range_behaviour "2024-13-01" "2024-06-20" 31).1.mpr
      (Or.inl (by decide))
  · exact (C5_validate_date_range_behaviour "2024-07-05" "2024-06-01" 31).2.2.2.1
      (by decide) ⟨⟨2024, 7, 5⟩, 0, 0, none⟩ ⟨⟨2024, 6, 1⟩, 0, 0, none⟩
      (by decide) (by decide) (by decide) (by decide)
  · exact (C5_validate_date_range_behaviour "2024-06-01T10:00+05:00" "2024-06-02" 31).2.2.2.2
      ⟨⟨2024, 6, 1⟩, 36000, 0, some 18000000000⟩ ⟨⟨2024, 6, 2⟩, 0, 0, none⟩
      (by decide) (by decide) (by decide)

/-- C9: whenever `shape_day_results` produces an empty itinerary list, the
deterministic tail of `search_day_results` raises `IndexError` from logging
`results[0]` instead of returning an empty response; consequently every
successfully returned response carries at least one itinerary. -/
theorem C9_empty_results_raise_index_error (raw : JValue) (fid tid : Int) :
    (∀ errs, shape_day_results raw = .ok ([], errs) →
      search_day_results_shape raw fid tid = .error (.indexError "list index out of range"))
    ∧ (∀ resp, search_day_results_shape raw fid tid = .ok resp → resp.results ≠ []) := by
  constructor
  · intro errs h
    unfold search_day_results_shape
    rw [h]
    rfl
  · intro resp h hres
    unfold search_day_results_shape at h
    cases hs : shape_day_results raw with
    | error e => rw [hs] at h; exact Except.noConfusion h
    | ok p =>
      rw [hs] at h
      obtain ⟨results, errs⟩ := p
      cases results with
      | nil => exact Except.noConfusion h
      | cons a l =>
        simp only [Except.bind] at h
        cases h
        simp at hres

/-- C9 witness: a payload with no schedules shapes to zero itineraries and
the search tail raises `IndexError` on it. -/
theorem C9_witness :
    search_day_results_shape (.obj []) 1 2 = .error (.indexError "list index out of range") :=
  (C9_empty_results_raise_index_error (.obj []) 1 2).1 0 rfl

/-- C10: each normalizer is embedded as a pure function because the Python
code neither mutates its argument nor consults ambient state (it only
builds fresh structures); under that embedding, normalizing the same raw
payload twice yields identical output definitionally. -/
theorem C10_normalizers_deterministic (a : List JValue) (b c d e : JValue)
    (cur cur2 : String) :
    normalize_positions a = normalize_positions a
    ∧ shape_day_results b = shape_day_results b
    ∧ normalize_calendar_day_results c = normalize_calendar_day_results c
    ∧ normalize_cheapest_summary_results d cur = normalize_cheapest_summary_results d cur
    ∧ normalize_fastest_summary_results e cur2 = normalize_fastest_summary_results e cur2 :=
  ⟨rfl, rfl, rfl, rfl, rfl⟩

/-- C3 counterexample: the claim states validation fails with the
domain-specific BadInput error iff the trimmed term is empty or shorter
than 2 characters.  The code checks the length of the *untrimmed* term, so
`" a "` (trimmed length 1) passes validation; and when validation does
fail it raises a plain `ValueError`, not the domain `InvalidInputError`. -/
theorem C3_counterexample :
    (pyStrip " a ").length < 2
    ∧ validate_autocomplete_params " a " = .ok ()
    ∧ validate_autocomplete_params "" =
        .error (.valueError "Autocomplete term cannot be empty.") :=
  ⟨by decide, rfl, rfl⟩

/-- C3 amended: autocomplete-term validation fails - with a plain
`ValueError` - iff the stripped term is empty or the unstripped term is
shorter than 2 characters; on failure `positions_autocomplete` propagates
that error without consulting the upstream client. -/
theorem C3_autocomplete_validation (term : String) :
    (validate_autocomplete_params term = .ok ()
      ↔ ((pyStrip term).isEmpty = false ∧ 2 ≤ term.length))
    ∧ (∀ err, validate_autocomplete_params term = .error err →
        ∃ msg, err = .valueError msg)
    ∧ (∀ err, validate_autocomplete_params term = .error err →
        ∀ client, positions_autocomplete client term = .error err) := by
  refine ⟨?_, ?_, ?_⟩
  · unfold validate_autocomplete_params
    by_cases h1 : (pyStrip term).isEmpty
    · simp [h1]
    · by_cases h2 : term.length < 2
      · simp [h1, h2]
      · simp [h1, h2]
        omega
  · intro err h
    unfold validate_autocomplete_params at h
    by_cases h1 : (pyStrip term).isEmpty
    · simp [h1] at h
      exact ⟨_, h.symm⟩
    · by_cases h2 : term.length < 2
      · simp [h1, h2] at h
        exact ⟨_, h.symm⟩
      · simp [h1, h2] at h
  · intro err h client
    unfold positions_autocomplete
    rw [h]

/-- C3 witness: a valid term passes, and a short term makes
`positions_autocomplete` fail identically for any client. -/
theorem C3_witness :
    validate_autocomplete_params "ab" = .ok ()
    ∧ positions_autocomplete (fun _ => .ok (.arr [])) "a" =
        .error (.valueError "Autocomplete term must contain at least 2 characters.") :=
  ⟨(C3_autocomplete_validation "ab").1.mpr ⟨by decide, by decide⟩,
   (C3_autocomplete_validation "a").2.2 _ rfl _⟩

/-- C4 counterexample: the claim states every produced `Position` has a
non-negative id.  A record whose `positionId` parses to `-5` is emitted
with id `-5`. -/
theorem C4_counterexample :
    normalize_positions [.obj [("positionId", .str "-5"), ("name", .str "X")]] =
      .ok ([⟨-5, "X", "unknown", none⟩], 0)
    ∧ (-5 : Int) < 0 :=
  ⟨rfl, by decide⟩

/-- C6 counterexample: the claim states `total_dates` equals the number of
distinct dates with at least one kept entry.  On a payload where date `d1`
has only a skipped entry (zero price) and `d2` a kept one, the code counts
`total_dates = 2` while only 1 date has kept data (the returned summary
holds exactly one date). -/
theorem C6_counterexample :
    (normalize_cheapest_summary_results (.obj [("data", .obj [
        ("d1", .obj [("bus", .obj [("priceCents", .int 0), ("numberOfResults", .int 1)])]),
        ("d2", .obj [("train", .obj [("priceCents", .int 100), ("numberOfResults", .int 2)])])])])
      "EUR").map (fun r => (r.2.total_dates, (r.1.summary.map Prod.fst).length)) =
      .ok (2, 1)
    ∧ (2 : Int) ≠ ((1 : Nat) : Int) :=
  ⟨rfl, by decide⟩

/-- C7 counterexample: the claim states that when both numeric ids are
supplied they are returned directly.  With `from_id = 0` and `to_id = 2`
supplied (and no terms), Python truthiness treats `0` as absent and the
call raises `LocationResolutionError` instead of returning `(0, 2)`. -/
theorem C7_counterexample :
    ensure_position_ids (fun _ _ => .ok (some 7, some 8)) ⟨some 0, some 2, none, none⟩ =
      .error (.locationResolution
        "Must provide either (from_id, to_id) or (from_term, to_term)")
    ∧ ensure_position_ids (fun _ _ => .ok (some 7, some 8)) ⟨some 0, some 2, none, none⟩ ≠
      .ok (0, 2) :=
  ⟨rfl, fun h => Except.noConfusion h⟩

/-- C7 amended: `_ensure_position_ids` uses Python truthiness throughout:
when both ids are truthy (non-`None` and non-zero) they are returned
directly, independently of the resolver (no resolution call); otherwise,
when both terms are truthy, the resolver decides: any resolver failure or
a falsy resolved id raises `LocationResolutionError`, truthy resolved ids
are returned; otherwise `LocationResolutionError` is raised citing the
missing inputs. -/
theorem C7_ensure_position_ids_routing
    (resolver : String → String → Except PyErr (Option Int × Option Int))
    (p : RouteParams) :
    (truthyOptInt p.from_id = true → truthyOptInt p.to_id = true →
      ensure_position_ids resolver p = .ok (p.from_id.getD 0, p.to_id.getD 0)
      ∧ ∀ r2, ensure_position_ids resolver p = ensure_position_ids r2 p)
    ∧ ((truthyOptInt p.from_id && truthyOptInt p.to_id) = false →
      truthyOptStr p.from_term = true → truthyOptStr p.to_term = true →
      (∀ err, resolver (p.from_term.getD "") (p.to_term.getD "") = .error err →
        ensure_position_ids resolver p = .error (.locationResolution
          ("Could not resolve locations for '" ++ p.from_term.getD "" ++ "' → '"
            ++ p.to_term.getD "" ++ "'")))
      ∧ (∀ fid tid, resolver (p.from_term.getD "") (p.to_term.getD "") = .ok (fid, tid) →
        ((truthyOptInt fid && truthyOptInt tid) = false →
          ensure_position_ids resolver p = .error (.locationResolution
            ("Could not resolve locations for '" ++ p.from_term.getD "" ++ "' → '"
              ++ p.to_term.getD "" ++ "'")))
        ∧ (truthyOptInt fid = true → truthyOptInt tid = true →
          ensure_position_ids resolver p = .ok (fid.getD 0, tid.getD 0))))
    ∧ ((truthyOptInt p.from_id && truthyOptInt p.to_id) = false →
      (truthyOptStr p.from_term && truthyOptStr p.to_term) = false →
      ensure_position_ids resolver p = .error (.locationResolution
        "Must provide either (from_id, to_id) or (from_term, to_term)")) := by
  refine ⟨?_, ?_, ?_⟩
  · intro h1 h2
    constructor
    · unfold ensure_position_ids
      rw [h1, h2]
      rfl
    · intro r2
      unfold ensure_position_ids
      rw [h1, h2]
      rfl
  · intro hids h1 h2
    constructor
    · intro err herr
      unfold ensure_position_ids
      rw [hids, h1, h2]
      simp only [Bool.and_self, if_false, if_true, Bool.false_eq_true, ite_false, ite_true]
      rw [herr]
    · intro fid tid hok
      constructor
      · intro hfalsy
        unfold ensure_position_ids
        rw [hids, h1, h2]
        simp only [Bool.false_eq_true, ite_false, ite_true]
        rw [hok]
        simp only [Bool.and_eq_false_iff] at hfalsy
        rcases hfalsy with hf | hf <;> simp [hf]
      · intro hf ht
        unfold ensure_position_ids
        rw [hids, h1, h2]
        simp only [Bool.false_eq_true, ite_false, ite_true]
        rw [hok]
        simp [hf, ht]
  · intro hids hterms
    unfold ensure_position_ids
    rw [hids, hterms]
    simp

/-- C7 witness: truthy ids short-circuit (independently of the resolver),
truthy terms resolve through the oracle, and missing inputs raise. -/
theorem C7_witness :
    ensure_position_ids (fun _ _ => .ok (some 7, some 8))
      ⟨some 1, some 2, some "Berlin", some "Paris"⟩ = .ok (1, 2)
    ∧ ensure_position_ids (fun _ _ => .error (.valueError "boom"))
        ⟨some 1, some 2, some "Berlin", some "Paris"⟩ = .ok (1, 2)
    ∧ ensure_position_ids (fun _ _ => .ok (some 7, some 8))
        ⟨none, none, some "Berlin", some "Paris"⟩ = .ok (7, 8)
    ∧ ensure_position_ids (fun _ _ => .ok (some 7, some 8)) ⟨none, none, none, none⟩ =
        .error (.locationResolution
          "Must provide either (from_id, to_id) or (from_term, to_term)") :=
  ⟨((C7_ensure_position_ids_routing _ _).1 (by decide) (by decide)).1,
   ((C7_ensure_position_ids_routing _ _).1 (by decide) (by decide)).1,
   (((C7_ensure_position_ids_routing _ _).2.1 (by decide) (by decide) (by decide)).2
      (some 7) (some 8) rfl).2 (by decide) (by decide),
   (C7_ensure_position_ids_routing _ _).2.2 (by decide) (by decide)⟩


/-- C2 amended: a schedule whose `segmentIDs` resolve to no existing segment
is not dropped, provided its schedule-level `departureAt`/`arrivalAt` are
strings (otherwise pydantic rejects the itinerary and the schedule is
dropped as a counted error): it yields an itinerary built from
schedule-level fallbacks whose `from_term`/`to_term` are the dict-get
default `"Unknown"` (not the empty string), and - when the schedule carries
no `travelMode` and no `duration` - whose mode is `"unknown"` and duration
`"0"`. -/
theorem C2_unmatched_segments_use_fallbacks
    (cm pm sm : List (String × JValue)) (kvs : List (String × JValue))
    (sids : List JValue) (deps arrs : String)
    (hsid : alistGet? kvs "segmentIDs" = some (.arr sids))
    (hnomatch : ∀ sid ∈ sids, pyHashMem sid sm = .ok false)
    (hdep : alistGet? kvs "departureAt" = some (.str deps))
    (harr : alistGet? kvs "arrivalAt" = some (.str arrs))
    (hmode : alistGet? kvs "travelMode" = none)
    (hdur : alistGet? kvs "duration" = none)
    (hprice : alistGet? kvs "priceCents" = none)
    (hcur : alistGet? kvs "currency" = none)
    (hpm : alistGet? pm "" = none) :
    ∃ it, processSchedule cm pm sm .null .null (.obj kvs) = .ok it
      ∧ it.from_term = "Unknown" ∧ it.to_term = "Unknown"
      ∧ it.mode = "unknown" ∧ it.duration = "0"
      ∧ it.departure = ⟨deps, some "UTC"⟩ ∧ it.arrival = ⟨arrs, some "UTC"⟩ := by
  unfold processSchedule
  simp only [pyGet, pyGetD, okBind, hsid, Option.getD_some]
  rw [pyIter_or_arr]
  simp only [okBind]
  rw [filterSegmentIds_no_match sm sids hnomatch]
  simp only [okBind, pureOk, List.map_nil, List.mapM_nil, pySortByKey, List.foldlM_nil,
    List.headD_nil]
  simp only [pyGet, pyGetD, okBind, pureOk, alistGet?_nil, Option.getD_none,
    hdep, harr, hmode, hdur, hprice, hcur, Option.getD_some]
  simp only [hpm, Option.getD_none, pyOr, truthy, Bool.not_false, Bool.false_eq_true,
    if_false, if_true, mkTimeInfo, asStr, asOptStr, okBind, pyStr, pyFloat,
    Bool.not_true]
  exact ⟨_, rfl, rfl, rfl, rfl, rfl, rfl, rfl⟩


/-- C2 witness: the fallback itinerary of an unmatched-segments schedule,
computed concretely. -/
theorem C2_witness :
    ∃ it, processSchedule [] [] [("1", .obj [("id", .str "1")])] .null .null
        (.obj [("segmentIDs", .arr [.str "99"]),
          ("departureAt", .str "2024-01-01T10:00"),
          ("arrivalAt", .str "2024-01-01T12:00")]) = .ok it
      ∧ it.from_term = "Unknown" ∧ it.to_term = "Unknown"
      ∧ it.mode = "unknown" ∧ it.duration = "0"
      ∧ it.departure = ⟨"2024-01-01T10:00", some "UTC"⟩
      ∧ it.arrival = ⟨"2024-01-01T12:00", some "UTC"⟩ :=
  C2_unmatched_segments_use_fallbacks [] [] _ _ _ _ _ rfl
    (by intro sid hs; rw [List.mem_singleton] at hs; subst hs; rfl)
    rfl rfl rfl rfl rfl rfl rfl

/-- C4 amended: every position produced by `normalize_positions` carries the
id obtained by `int()`-parsing its record's `positionId` value, which may be
negative; no sign constraint is enforced. -/
theorem C4_ids_are_parsed_ints (raw : List JValue) (ps : List Position) (k : Nat)
    (h : normalize_positions raw = .ok (ps, k)) :
    ∀ p ∈ ps, ∃ rec ∈ raw, processRecord rec = .ok (some p)
      ∧ ∃ v, pyGet rec "positionId" = .ok v ∧ pyInt v = .ok p.id := by
  intro p hp
  unfold normalize_positions at h
  cases hr : raw.isEmpty with
  | true =>
    rw [hr] at h
    simp at h
    rw [h.1] at hp
    simp at hp
  | false =>
    rw [hr] at h
    simp only [Bool.false_eq_true, if_false] at h
    rcases npLoop_mem raw [] 0 ps k h p hp with hacc | ⟨rec, hrec, hpr⟩
    · simp at hacc
    · exact ⟨rec, hrec, hpr, processRecord_ok_some rec p hpr⟩


/-- C4 witness: the negative-id record traced back to its `int()` parse. -/
theorem C4_witness :
    ∃ rec ∈ ([.obj [("positionId", .str "-5"), ("name", .str "X")]] : List JValue),
      processRecord rec = .ok (some (⟨-5, "X", "unknown", none⟩ : Position))
      ∧ ∃ v, pyGet rec "positionId" = .ok v ∧ pyInt v = .ok (-5 : Int) :=
  C4_ids_are_parsed_ints [.obj [("positionId", .str "-5"), ("name", .str "X")]]
    [⟨-5, "X", "unknown", none⟩] 0 rfl ⟨-5, "X", "unknown", none⟩ (by simp)

/-- C6 amended: whenever `normalize_cheapest_summary_results` returns
normally, `total_dates` equals the number of dates whose value is a dict
(counted whether or not any of their entries is kept), `total_modes` equals
the number of kept (date, mode) entries (kept iff neither `priceCents` nor
`numberOfResults` is 0), and `total_results` equals the summed
`numberOfResults` over kept entries. -/
theorem C6_cheapest_stats (data : JValue) (currency : String)
    (res : CheapestResult) (stats : CheapestStats)
    (h : normalize_cheapest_summary_results data currency = .ok (res, stats)) :
    stats.total_dates = ((cheapestDataEntries data).length : Int)
    ∧ stats.total_modes = totalKeptModes (cheapestDataEntries data)
    ∧ stats.total_results = totalKeptResults (cheapestDataEntries data) := by
  cases data with
  | obj dkvs =>
    simp only [normalize_cheapest_summary_results, pyItems, okBind, pyGet, pyGetD] at h
    cases hpd : (alistGet? dkvs "data").getD (.obj []) with
    | null =>
      rw [hpd] at h
      simp only [truthy, Bool.not_false, if_true] at h
      simp only [Except.ok.injEq, Prod.mk.injEq] at h
      rw [← h.2]
      simp [cheapestDataEntries, hpd, initCheapestStats, dictDates,
        totalKeptModes, totalKeptResults]
    | bool b =>
      rw [hpd] at h
      cases b with
      | false =>
        simp only [truthy, Bool.not_false, if_true] at h
        simp only [Except.ok.injEq, Prod.mk.injEq] at h
        rw [← h.2]
        simp [cheapestDataEntries, hpd, initCheapestStats, dictDates,
          totalKeptModes, totalKeptResults]
      | true =>
        simp only [truthy, Bool.not_true, Bool.false_eq_true, if_false, pyLen] at h
        simp at h
    | int n =>
      rw [hpd] at h
      by_cases hn : n = 0
      · subst hn
        simp only [truthy] at h
        simp only [bne_self_eq_false, Bool.not_false, if_true] at h
        simp only [Except.ok.injEq, Prod.mk.injEq] at h
        rw [← h.2]
        simp [cheapestDataEntries, hpd, initCheapestStats, dictDates,
          totalKeptModes, totalKeptResults]
      · simp only [truthy] at h
        rw [if_neg (by simp [hn])] at h
        simp [pyLen] at h
    | str s =>
      rw [hpd] at h
      by_cases hs : s.isEmpty
      · simp only [truthy, hs, Bool.not_true, Bool.not_false, if_true] at h
        simp only [Except.ok.injEq, Prod.mk.injEq] at h
        rw [← h.2]
        simp [cheapestDataEntries, hpd, initCheapestStats, dictDates,
          totalKeptModes, totalKeptResults]
      · simp only [truthy, hs, Bool.not_false, Bool.not_true] at h
        rw [if_neg (by simp)] at h
        simp only [pyLen, okBind] at h
        simp at h
    | arr xs =>
      rw [hpd] at h
      cases xs with
      | nil =>
        simp only [truthy, List.isEmpty_nil, Bool.not_true, Bool.not_false, if_true,
          Except.ok.injEq, Prod.mk.injEq] at h
        rw [← h.2]
        simp [cheapestDataEntries, hpd, initCheapestStats, dictDates,
          totalKeptModes, totalKeptResults]
      | cons x rest =>
        simp only [truthy, List.isEmpty_cons, Bool.not_false, Bool.not_true,
          Bool.false_eq_true, if_false, pyLen, okBind] at h
        simp at h
    | obj items =>
      rw [hpd] at h
      cases items with
      | nil =>
        simp only [truthy, List.isEmpty_nil, Bool.not_true, Bool.not_false, if_true,
          Except.ok.injEq, Prod.mk.injEq] at h
        rw [← h.2]
        simp [cheapestDataEntries, hpd, initCheapestStats, dictDates,
          totalKeptModes, totalKeptResults]
      | cons kv rest =>
        simp only [truthy, List.isEmpty_cons, Bool.not_false, Bool.not_true,
          Bool.false_eq_true, if_false, pyLen, okBind] at h
        cases hdl : cheapDateLoop currency (kv :: rest) initCheapestStats [] with
        | error e => rw [hdl] at h; simp at h
        | ok p =>
          obtain ⟨stats1, summary1⟩ := p
          rw [hdl] at h
          simp only [okBind] at h
          have houter := cheapDateLoop_stats _ _ _ _ _ _ hdl
          cases hc : (stats1.min_price_overall.isNone || stats1.max_price_overall.isNone) with
          | true => rw [if_pos (by rw [hc])] at h; simp at h
          | false =>
            rw [if_neg (by rw [hc]; exact Bool.false_ne_true)] at h
            simp only [Except.ok.injEq, Prod.mk.injEq] at h
            rw [← h.2]
            simp only [cheapestDataEntries, hpd, initCheapestStats] at houter ⊢
            simpa using houter
  | null => simp [normalize_cheapest_summary_results, pyItems] at h
  | bool b => simp [normalize_cheapest_summary_results, pyItems] at h
  | int n => simp [normalize_cheapest_summary_results, pyItems] at h
  | str s => simp [normalize_cheapest_summary_results, pyItems] at h
  | arr xs => simp [normalize_cheapest_summary_results, pyItems] at h


/-- C6 witness: the mixed payload evaluated concretely against the theorem:
`total_dates` equals the number of dict-valued dates. -/
theorem C6_witness :
    ((cheapestDataEntries (.obj [("data", .obj [
        ("d1", .obj [("bus", .obj [("priceCents", .int 0), ("numberOfResults", .int 1)])]),
        ("d2", .obj [("train", .obj [("priceCents", .int 100), ("numberOfResults", .int 2)])])])])).length : Int) = 2
    ∧ (normalize_cheapest_summary_results (.obj [("data", .obj [
        ("d1", .obj [("bus", .obj [("priceCents", .int 0), ("numberOfResults", .int 1)])]),
        ("d2", .obj [("train", .obj [("priceCents", .int 100), ("numberOfResults", .int 2)])])])])
        "EUR").map (fun r => r.2.total_dates) =
      .ok ((cheapestDataEntries (.obj [("data", .obj [
        ("d1", .obj [("bus", .obj [("priceCents", .int 0), ("numberOfResults", .int 1)])]),
        ("d2", .obj [("train", .obj [("priceCents", .int 100), ("numberOfResults", .int 2)])])])])).length : Int) := by
  cases hn : normalize_cheapest_summary_results (.obj [("data", .obj [
      ("d1", .obj [("bus", .obj [("priceCents", .int 0), ("numberOfResults", .int 1)])]),
      ("d2", .obj [("train", .obj [("priceCents", .int 100), ("numberOfResults", .int 2)])])])])
      "EUR" with
  | error e =>
    have hproj : (Except.error e :
        Except PyErr (CheapestResult × CheapestStats)).map (fun r => r.2.total_dates) =
        .ok 2 := by
      rw [← hn]
      rfl
    simp [Except.map] at hproj
  | ok p =>
    have hstats := C6_cheapest_stats _ _ p.1 p.2 (by rw [hn])
    refine ⟨by decide, ?_⟩
    simp only [Except.map]
    rw [hstats.1]

/-- C8 counterexample: the claim quantifies over every raw position list,
but a truthy non-object record is neither kept nor skipped - it aborts the
whole call, so no output/skipped counts exist for the stated equality: an
integer record raises `TypeError` from the `"positionId" in record` test,
and a truthy string record (without the substring) passes that test into
the skip branch, whose debug log evaluates `list(record.keys())` and
raises `AttributeError`. -/
theorem C8_counterexample :
    normalize_positions [.int 5] = .error (.typeError "argument is not a container")
    ∧ normalize_positions [.str "hello"] =
        .error (.attributeError "object has no attribute keys")
    ∧ ∀ ps k, normalize_positions [.int 5] ≠ .ok (ps, k) :=
  ⟨rfl, rfl, fun _ _ h => Except.noConfusion h⟩

/-- C8: on payloads whose records are JSON objects with string-typed naming
fields (or falsy placeholders), `normalize_positions` returns normally,
output length plus skipped count equals input length, output preserves
input order (it is the orderly filter-map of per-record processing), and a
record is skipped exactly under the claimed conditions (empty record,
missing `positionId`, no usable name, unparseable `positionId`). -/
theorem C8_count_order_skip (raw : List JValue)
    (hw : ∀ e ∈ raw, wellFormedRecord e = true) :
    ∃ ps k, normalize_positions raw = .ok (ps, k)
      ∧ ps.length + k = raw.length
      ∧ ps = raw.filterMap recOpt
      ∧ ∀ e ∈ raw, ((recOpt e).isNone = true ↔ skipSpec e = true) := by
  refine ⟨raw.filterMap recOpt, raw.countP (fun e => (recOpt e).isNone), ?_, ?_, rfl, ?_⟩
  · unfold normalize_positions
    cases hr : raw.isEmpty with
    | true =>
      have : raw = [] := by simpa using hr
      subst this
      simp
    | false =>
      simp only [Bool.false_eq_true, if_false]
      rw [npLoop_wf raw [] 0 hw]
      simp
  · exact length_filterMap_recOpt raw
  · intro e he
    have h2 := (processRecord_wf e (hw e he)).2
    rw [Option.isNone_iff_eq_none]
    exact h2


/-- C8 witness: a concrete mixed batch (one kept record, three skipped)
satisfies the count, order and skip-condition properties. -/
theorem C8_witness :
    (∀ e ∈ ([.obj [("positionId", .int 7), ("displayName", .str "Berlin Hbf")], .null,
        .obj [("positionId", .str "x"), ("name", .str "B")], .obj []] : List JValue),
      wellFormedRecord e = true)
    ∧ ∃ ps k, normalize_positions
        [.obj [("positionId", .int 7), ("displayName", .str "Berlin Hbf")], .null,
          .obj [("positionId", .str "x"), ("name", .str "B")], .obj []] = .ok (ps, k)
      ∧ ps.length + k = ([.obj [("positionId", .int 7), ("displayName", .str "Berlin Hbf")], .null,
          .obj [("positionId", .str "x"), ("name", .str "B")], .obj []] : List JValue).length
      ∧ ps = ([.obj [("positionId", .int 7), ("displayName", .str "Berlin Hbf")], .null,
          .obj [("positionId", .str "x"), ("name", .str "B")], .obj []] : List JValue).filterMap recOpt
      ∧ ∀ e ∈ ([.obj [("positionId", .int 7), ("displayName", .str "Berlin Hbf")], .null,
          .obj [("positionId", .str "x"), ("name", .str "B")], .obj []] : List JValue),
        ((recOpt e).isNone = true ↔ skipSpec e = true) :=
  ⟨by decide, C8_count_order_skip _ (by decide)⟩

end MCP
